import Mathlib

/-!
# Verification of the programs of `learning-cpp`

## Shape hierarchy of `src/oop/polymorphism.cpp`

A `double` is read as an element of a field `F` with exact arithmetic (no rounding).
What the program takes from the C++ library for a `double` is kept as a parameter:
the square root of `<cmath>` and the text that `operator<<` writes for a value.

Console output is a list of lines: every `... << std::endl` statement adds one line.
Objects live in a heap (a list, addresses are indices); a `Shape*` is an address.
-/

namespace Polymorphism

/-- Library services used on a `double`: `sqrt` and the text written by `operator<<`. -/
structure DoubleLib (F : Type) where
  sqrt : F → F
  fmt : F → String

/-- Data members of `class Shape`: `name`, `x`, `y`. -/
structure Shape (F : Type) where
  name : String
  x : F
  y : F

/-- Members of `class Circle : public Shape`. -/
structure Circle (F : Type) extends Shape F where
  radius : F

/-- Members of `class Rectangle : public Shape`. -/
structure Rectangle (F : Type) extends Shape F where
  width : F
  height : F

/-- Members of `class Triangle : public Shape`. -/
structure Triangle (F : Type) extends Shape F where
  base : F
  height : F

/-- A complete object as seen through a `Shape*` or `Shape&`: the dynamic type is the tag. -/
inductive AnyShape (F : Type) where
  | circle (c : Circle F)
  | rectangle (r : Rectangle F)
  | triangle (t : Triangle F)

section Methods

variable {F : Type} [Field F]

/-! ### `Shape` (base class) -/

/-- Source `Shape::getName`. -/
def Shape.getName (self : Shape F) : String := self.name

/-- Source `Shape::getX`. -/
def Shape.getX (self : Shape F) : F := self.x

/-- Source `Shape::getY`. -/
def Shape.getY (self : Shape F) : F := self.y

/-- Source `Shape::move`: assigns `x`, then `y`, then prints one line from the new members. -/
def Shape.move (L : DoubleLib F) (self : Shape F) (newX newY : F) : Shape F × List String :=
  let s1 : Shape F := { self with x := newX }
  let s2 : Shape F := { s1 with y := newY }
  (s2, ["  " ++ s2.name ++ " moved to (" ++ L.fmt s2.x ++ ", " ++ L.fmt s2.y ++ ")"])

/-! ### `Circle` -/

/-- Source `Circle::getArea`: `3.14159 * radius * radius`. -/
def Circle.getArea (self : Circle F) : F := 3.14159 * self.radius * self.radius

/-- Source `Circle::getPerimeter`: `2 * 3.14159 * radius`. -/
def Circle.getPerimeter (self : Circle F) : F := 2 * 3.14159 * self.radius

/-- Source `Circle::draw`. -/
def Circle.draw (L : DoubleLib F) (self : Circle F) : List String :=
  ["  Drawing a circle with radius " ++ L.fmt self.radius]

/-- Source `Circle::move`: calls `Shape::move`, then prints one more line. -/
def Circle.move (L : DoubleLib F) (self : Circle F) (newX newY : F) : Circle F × List String :=
  let r := Shape.move L self.toShape newX newY
  ({ self with toShape := r.1 }, r.2 ++ ["  Circle-specific move completed"])

/-- Source `Circle::getRadius`. -/
def Circle.getRadius (self : Circle F) : F := self.radius

/-! ### `Rectangle` -/

/-- Source `Rectangle::getArea`: `width * height`. -/
def Rectangle.getArea (self : Rectangle F) : F := self.width * self.height

/-- Source `Rectangle::getPerimeter`: `2 * (width + height)`. -/
def Rectangle.getPerimeter (self : Rectangle F) : F := 2 * (self.width + self.height)

/-- Source `Rectangle::draw`. -/
def Rectangle.draw (L : DoubleLib F) (self : Rectangle F) : List String :=
  ["  Drawing a rectangle " ++ L.fmt self.width ++ "x" ++ L.fmt self.height]

/-- `Rectangle` has no `move` of its own: a call runs the inherited `Shape::move` on the
base part and leaves `width` and `height` as they are. -/
def Rectangle.move (L : DoubleLib F) (self : Rectangle F) (newX newY : F) :
    Rectangle F × List String :=
  let r := Shape.move L self.toShape newX newY
  ({ self with toShape := r.1 }, r.2)

/-- Source `Rectangle::getWidth`. -/
def Rectangle.getWidth (self : Rectangle F) : F := self.width

/-- Source `Rectangle::getHeight`. -/
def Rectangle.getHeight (self : Rectangle F) : F := self.height

/-! ### `Triangle` -/

/-- Source `Triangle::getArea`: `0.5 * base * height`. -/
def Triangle.getArea (self : Triangle F) : F := 0.5 * self.base * self.height

/-- Source `Triangle::getPerimeter`: `hypotenuse = sqrt(base * base + height * height)`,
result `base + height + hypotenuse`. -/
def Triangle.getPerimeter (L : DoubleLib F) (self : Triangle F) : F :=
  let hypotenuse := L.sqrt (self.base * self.base + self.height * self.height)
  self.base + self.height + hypotenuse

/-- Source `Triangle::draw`. -/
def Triangle.draw (L : DoubleLib F) (self : Triangle F) : List String :=
  ["  Drawing a triangle with base " ++ L.fmt self.base ++ " and height " ++ L.fmt self.height]

/-- `Triangle` has no `move` of its own: a call runs the inherited `Shape::move` on the
base part and leaves `base` and `height` as they are. -/
def Triangle.move (L : DoubleLib F) (self : Triangle F) (newX newY : F) :
    Triangle F × List String :=
  let r := Shape.move L self.toShape newX newY
  ({ self with toShape := r.1 }, r.2)

/-- Source `Triangle::getBase`. -/
def Triangle.getBase (self : Triangle F) : F := self.base

/-- Source `Triangle::getHeight`. -/
def Triangle.getHeight (self : Triangle F) : F := self.height

/-! ### Calls through the abstract type -/

/-- The `Shape` base subobject of a complete object. -/
def AnyShape.toShape : AnyShape F → Shape F
  | .circle c => c.toShape
  | .rectangle r => r.toShape
  | .triangle t => t.toShape

/-- Non-virtual `getName` on a `Shape*`. -/
def AnyShape.getName (self : AnyShape F) : String := self.toShape.getName

/-- Non-virtual `getX` on a `Shape*`. -/
def AnyShape.getX (self : AnyShape F) : F := self.toShape.getX

/-- Non-virtual `getY` on a `Shape*`. -/
def AnyShape.getY (self : AnyShape F) : F := self.toShape.getY

/-- Virtual call `shape->getArea()`: the final overrider of the dynamic type runs. -/
def AnyShape.getArea : AnyShape F → F
  | .circle c => c.getArea
  | .rectangle r => r.getArea
  | .triangle t => t.getArea

/-- Virtual call `shape->getPerimeter()`. -/
def AnyShape.getPerimeter (L : DoubleLib F) : AnyShape F → F
  | .circle c => c.getPerimeter
  | .rectangle r => r.getPerimeter
  | .triangle t => t.getPerimeter L

/-- Virtual call `shape->draw()`. -/
def AnyShape.draw (L : DoubleLib F) : AnyShape F → List String
  | .circle c => c.draw L
  | .rectangle r => r.draw L
  | .triangle t => t.draw L

/-- Virtual call `shape->move(newX, newY)`: `Circle::move` for a circle, the inherited
`Shape::move` for the two classes that do not override it. -/
def AnyShape.move (L : DoubleLib F) (self : AnyShape F) (newX newY : F) :
    AnyShape F × List String :=
  match self with
  | .circle c => let r := c.move L newX newY; (.circle r.1, r.2)
  | .rectangle r => let q := r.move L newX newY; (.rectangle q.1, q.2)
  | .triangle t => let q := t.move L newX newY; (.triangle q.1, q.2)

/-- Source `Shape::displayInfo` (non-virtual, `const`), run on an object of any dynamic type:
three output statements, the last two calling the virtual `getArea` and `getPerimeter`. -/
def Shape.displayInfo (L : DoubleLib F) (self : AnyShape F) : List String :=
  ["  Shape: " ++ self.toShape.name ++ " at (" ++ L.fmt self.toShape.x ++ ", "
      ++ L.fmt self.toShape.y ++ ")",
   "    Area: " ++ L.fmt self.getArea,
   "    Perimeter: " ++ L.fmt (self.getPerimeter L)]

/-- Replace the base subobject of an object, keeping its dynamic type and own members. -/
def AnyShape.withShape (self : AnyShape F) (b : Shape F) : AnyShape F :=
  match self with
  | .circle c => .circle { c with toShape := b }
  | .rectangle r => .rectangle { r with toShape := b }
  | .triangle t => .triangle { t with toShape := b }

end Methods

/-! ### Program state and calls through pointers -/

/-- State of a run: the objects (a `Shape*` is an index into `heap`) and the console lines. -/
structure World (F : Type) where
  heap : List (AnyShape F)
  out : List String

section Calls

variable {F : Type} [Field F]

/-- One output statement ending in `std::endl`. -/
def World.println (w : World F) (line : String) : World F :=
  { w with out := w.out ++ [line] }

/-- Call `shape->getX()`; `none` when the pointer addresses no object. -/
def World.getX (w : World F) (shape : Nat) : Option F :=
  (w.heap[shape]?).map AnyShape.getX

/-- Call `shape->getY()`. -/
def World.getY (w : World F) (shape : Nat) : Option F :=
  (w.heap[shape]?).map AnyShape.getY

/-- Call `shape->getArea()`. -/
def World.getArea (w : World F) (shape : Nat) : Option F :=
  (w.heap[shape]?).map AnyShape.getArea

/-- Call `shape->displayInfo()`: only the console changes. -/
def World.displayInfo (L : DoubleLib F) (w : World F) (shape : Nat) : Option (World F) :=
  (w.heap[shape]?).map fun s => { w with out := w.out ++ Shape.displayInfo L s }

/-- Call `shape->draw()`: only the console changes. -/
def World.draw (L : DoubleLib F) (w : World F) (shape : Nat) : Option (World F) :=
  (w.heap[shape]?).map fun s => { w with out := w.out ++ s.draw L }

/-- Call `shape->move(newX, newY)`: the object is updated in place. -/
def World.move (L : DoubleLib F) (w : World F) (shape : Nat) (newX newY : F) :
    Option (World F) :=
  (w.heap[shape]?).map fun s =>
    let r := s.move L newX newY
    { heap := w.heap.set shape r.1, out := w.out ++ r.2 }

/-- Body of the range-for in `demonstratePolymorphism` for one `shape`. The source declares
the loop variable as `const Shape*` and calls the non-`const` member `move` through it; the
call is read as written, acting on the pointed-to object. -/
def demonstratePolymorphism.body (L : DoubleLib F) (w : World F) (shape : Nat) :
    Option (World F) := do
  let w1 := w.println ""
  let w2 ← w1.displayInfo L shape
  let w3 ← w2.draw L shape
  let gx ← w3.getX shape
  let gy ← w3.getY shape
  w3.move L shape (gx + 10) (gy + 10)

/-- The range-for of `demonstratePolymorphism` over the pointer vector. -/
def demonstratePolymorphism.loop (L : DoubleLib F) : World F → List Nat → Option (World F)
  | w, [] => some w
  | w, shape :: rest =>
    (demonstratePolymorphism.body L w shape).bind fun w1 =>
      demonstratePolymorphism.loop L w1 rest

/-- Source `demonstratePolymorphism(const std::vector<Shape*>& shapes)`. -/
def demonstratePolymorphism (L : DoubleLib F) (w : World F) (shapes : List Nat) :
    Option (World F) :=
  demonstratePolymorphism.loop L (w.println "  === Polymorphism Demonstration ===") shapes

/-- The range-for of `calculateTotalArea`: `totalArea += shape->getArea()`. -/
def calculateTotalArea.loop : World F → F → List Nat → Option (F × World F)
  | w, totalArea, [] => some (totalArea, w)
  | w, totalArea, shape :: rest =>
    (w.getArea shape).bind fun a => calculateTotalArea.loop w (totalArea + a) rest

/-- Source `calculateTotalArea(const std::vector<Shape*>& shapes)`: the returned value and
the state after the call. -/
def calculateTotalArea (w : World F) (shapes : List Nat) : Option (F × World F) :=
  calculateTotalArea.loop w 0.0 shapes

/-- The three objects of `main` after section 1: `circle`, `rectangle`, `triangle`
at addresses 0, 1, 2. -/
def mainObjects : List (AnyShape F) :=
  [.circle { name := "MyCircle", x := 0, y := 0, radius := 5.0 },
   .rectangle { name := "MyRectangle", x := 10, y := 10, width := 4.0, height := 6.0 },
   .triangle { name := "MyTriangle", x := 20, y := 20, base := 3.0, height := 4.0 }]

/-- The vector `shapes` of `main`: `&circle`, `&rectangle`, `&triangle`. -/
def mainShapes : List Nat := [0, 1, 2]

end Calls

/-! ### Constructors and `main` -/

section Program

variable {F : Type} [Field F]

/-- Source `Shape::Shape(shapeName, posX, posY)`: members initialised, then one line. -/
def Shape.ctor (shapeName : String) (posX posY : F) : Shape F × List String :=
  let self : Shape F := { name := shapeName, x := posX, y := posY }
  (self, ["  Shape constructor: " ++ self.name])

/-- Source `Circle::Circle(circleName, r, posX, posY)`: base constructor, `radius(r)`, then
one line. -/
def Circle.ctor (circleName : String) (r posX posY : F) : Circle F × List String :=
  let b := Shape.ctor circleName posX posY
  let self : Circle F := { toShape := b.1, radius := r }
  (self, b.2 ++ ["  Circle constructor: " ++ self.name])

/-- Source `Rectangle::Rectangle(rectName, w, h, posX, posY)`. -/
def Rectangle.ctor (rectName : String) (w h posX posY : F) : Rectangle F × List String :=
  let b := Shape.ctor rectName posX posY
  let self : Rectangle F := { toShape := b.1, width := w, height := h }
  (self, b.2 ++ ["  Rectangle constructor: " ++ self.name])

/-- Source `Triangle::Triangle(triName, b, h, posX, posY)`. -/
def Triangle.ctor (triName : String) (b h posX posY : F) : Triangle F × List String :=
  let s := Shape.ctor triName posX posY
  let self : Triangle F := { toShape := s.1, base := b, height := h }
  (self, s.2 ++ ["  Triangle constructor: " ++ self.name])

/-- Call `shape->getName()`. -/
def World.getName (w : World F) (shape : Nat) : Option String :=
  (w.heap[shape]?).map AnyShape.getName

/-- A definition of an object (a local, or `std::make_unique`): the constructor's lines are
printed and the object takes the next free address. -/
def World.construct (w : World F) (r : AnyShape F × List String) : World F :=
  { heap := w.heap ++ [r.1], out := w.out ++ r.2 }

/-- Text written without `std::endl` stays on the current line: it stands in front of the
next line written. -/
def joinPending (pending : String) : List String → List String
  | [] => [pending]
  | line :: rest => (pending ++ line) :: rest

/-- Addresses of the locals of `main`, in the order of their definitions. -/
def main.circle : Nat := 0

/-- Address of the local `rectangle`. -/
def main.rectangle : Nat := 1

/-- Address of the local `triangle`. -/
def main.triangle : Nat := 2

/-- Sections 1 to 3 of `main` (lines 184 to 209), run from the empty state: the three locals
are constructed, displayed directly, and passed to `demonstratePolymorphism` as
`shapes = {&circle, &rectangle, &triangle}`. -/
def main.sections1to3 (L : DoubleLib F) : Option (World F) := do
  let w : World F := { heap := [], out := [] }
  let w := w.println "=== C++ Polymorphism ==="
  let w := w.println ""
  let w := w.println "1. Creating shape objects:"
  let c := Circle.ctor "MyCircle" (5.0 : F) 0 0
  let w := w.construct (.circle c.1, c.2)
  let r := Rectangle.ctor "MyRectangle" (4.0 : F) 6.0 10 10
  let w := w.construct (.rectangle r.1, r.2)
  let t := Triangle.ctor "MyTriangle" (3.0 : F) 4.0 20 20
  let w := w.construct (.triangle t.1, t.2)
  let w := w.println ""
  let w := w.println "2. Direct object calls:"
  let w ← w.displayInfo L main.circle
  let w ← w.displayInfo L main.rectangle
  let w ← w.displayInfo L main.triangle
  let w := w.println ""
  let w := w.println "3. Polymorphism with pointers:"
  let shapes : List Nat := [main.circle, main.rectangle, main.triangle]
  let w ← demonstratePolymorphism L w shapes
  pure (w.println "")

/-- The range-for of section 4 over `dynamicShapes`: `displayInfo`, then `draw`. -/
def main.section4.loop (L : DoubleLib F) : World F → List Nat → Option (World F)
  | w, [] => some w
  | w, shape :: rest =>
    (w.displayInfo L shape).bind fun w1 =>
      (w1.draw L shape).bind fun w2 => main.section4.loop L w2 rest

/-- Section 4 of `main` (lines 211 to 223): three objects made by `std::make_unique` with the
default position (0, 0), then displayed and drawn in order. -/
def main.section4 (L : DoubleLib F) (w : World F) : Option (World F) := do
  let w := w.println "4. Dynamic allocation and polymorphism:"
  let p1 := w.heap.length
  let c := Circle.ctor "DynamicCircle" (3.0 : F) 0 0
  let w := w.construct (.circle c.1, c.2)
  let p2 := w.heap.length
  let r := Rectangle.ctor "DynamicRectangle" (5.0 : F) 3.0 0 0
  let w := w.construct (.rectangle r.1, r.2)
  let p3 := w.heap.length
  let t := Triangle.ctor "DynamicTriangle" (4.0 : F) 3.0 0 0
  let w := w.construct (.triangle t.1, t.2)
  let w ← main.section4.loop L w [p1, p2, p3]
  pure (w.println "")

/-- Section 5 of `main` (lines 225 to 237): `shapeRef1` is `circle`, `shapeRef2` is
`rectangle`. -/
def main.section5 (L : DoubleLib F) (w : World F) : Option (World F) := do
  let w := w.println "5. Polymorphism with references:"
  let shapeRef1 := main.circle
  let shapeRef2 := main.rectangle
  let w := w.println "  Circle via reference:"
  let w ← w.displayInfo L shapeRef1
  let w ← w.draw L shapeRef1
  let w := w.println "  Rectangle via reference:"
  let w ← w.displayInfo L shapeRef2
  let w ← w.draw L shapeRef2
  pure (w.println "")

/-- The range-for of section 7: name and area of each shape on one line. -/
def main.section7.loop (L : DoubleLib F) : World F → List Nat → Option (World F)
  | w, [] => some w
  | w, shape :: rest =>
    (w.getName shape).bind fun n =>
      (w.getArea shape).bind fun a =>
        main.section7.loop L (w.println ("  " ++ n ++ " area calculation: " ++ L.fmt a)) rest

/-- The `for (int i = 0; i < 3; ++i)` of section 8 over `shapeArray`, from index `i`:
`"  Shape " << (i + 1) << ": "` stays on the line that `draw` then writes. -/
def main.section8.loop (L : DoubleLib F) : World F → Nat → List Nat → Option (World F)
  | w, _, [] => some w
  | w, i, shape :: rest =>
    (w.heap[shape]?).bind fun s =>
      main.section8.loop L
        { w with out := w.out ++ joinPending ("  Shape " ++ toString (i + 1) ++ ": ") (s.draw L) }
        (i + 1) rest

/-- Sections 6 to 8 of `main` (lines 239 to 263). -/
def main.sections6to8 (L : DoubleLib F) (w : World F) : Option (World F) := do
  let shapes : List Nat := [main.circle, main.rectangle, main.triangle]
  let w := w.println "6. Function using polymorphism:"
  let r ← calculateTotalArea w shapes
  let totalArea := r.1
  let w := r.2
  let w := w.println ("  Total area of all shapes: " ++ L.fmt totalArea)
  let w := w.println ""
  let w := w.println "7. Virtual function behavior:"
  let w ← main.section7.loop L w shapes
  let w := w.println ""
  let w := w.println "8. Array of polymorphic objects:"
  let shapeArray : List Nat := [main.circle, main.rectangle, main.triangle]
  let w ← main.section8.loop L w 0 shapeArray
  let w := w.println ""
  pure (w.println "=== End of Polymorphism Example ===")

/-- Source `main` of `polymorphism.cpp` up to and with `return 0`: the returned code and the
state at that point. The destructors of the locals run after the return value is fixed and
are not part of it. -/
def main (L : DoubleLib F) : Option (Int × World F) := do
  let w ← main.sections1to3 L
  let w ← main.section4 L w
  let w ← main.section5 L w
  let w ← main.sections6to8 L w
  pure (0, w)

end Program

end Polymorphism

/-!
# Binary64 arithmetic

The values of a `double` are rationals here; an arithmetic operation of the program is the
exact operation followed by `roundNearestEven`, the rounding of IEEE 754 binary64 in its
default mode. Every operation is rounded on its own, as on a target that evaluates `double`
expressions in binary64 without wider intermediate results. Values beyond the largest
finite `double` (overflow to infinity) are outside this model; the sums of grades it is used
for stay far below.
-/

namespace Binary64

/-- Rounding of a rational to the nearest integer, a tie going to the even integer. -/
def roundHalfEven (q : ℚ) : ℤ :=
  let f := ⌊q⌋
  if q - f < 1 / 2 then f
  else if 1 / 2 < q - f then f + 1
  else if f % 2 = 0 then f else f + 1

/-- Exponent of the unit in the last place at `x`: binary64 keeps 53 significant bits, and its
least exponent is -1074 (the subnormal values). -/
def ulpExponent (x : ℚ) : ℤ := max (Int.log 2 |x| - 52) (-1074)

/-- Round-to-nearest, ties-to-even, onto the binary64 values: `x` is scaled by its unit in
the last place, rounded to an integer and scaled back. -/
def roundNearestEven (x : ℚ) : ℚ :=
  roundHalfEven (x / 2 ^ ulpExponent x) * 2 ^ ulpExponent x

end Binary64

/-!
# `Student` and `Course` of `src/oop/classes.cpp`

A `double` is an element of an ordered field `F` (exact arithmetic), an `int` is an integer;
the text `operator<<` writes for a `double` is the parameter `fmt`. Every `Student` ever
constructed has a slot in `State.objects`; the slot is emptied by the destructor.
The average of the grades is also given in the arithmetic of the machine
(`Student.getAverageGradeBinary64`), where an order property of its value depends on the
rounding of every addition and of the division.
-/

namespace Classes

/-- Data members of `class Student` (the static `totalStudents` is in `State`). -/
structure Student (F : Type) where
  name : String
  age : Int
  grades : List F

/-- Data members of `class Course`. -/
structure Course where
  courseName : String
  instructor : String
  credits : Int

/-- State of a run: the static member `Student::totalStudents`, one slot per `Student`
constructed so far (`none` once destroyed; its address is the index), the console lines. -/
structure State (F : Type) where
  totalStudents : Int
  objects : List (Option (Student F))
  out : List String

/-- A `std::vector<Student>`: the addresses of its elements and its capacity. -/
structure StudentVector where
  elems : List Nat
  capacity : Nat

section Methods

variable {F : Type} [LinearOrderedField F]

/-- Source `Student::getName`. -/
def Student.getName (self : Student F) : String := self.name

/-- Source `Student::getAge`. -/
def Student.getAge (self : Student F) : Int := self.age

/-- Source `Student::setName`. -/
def Student.setName (self : Student F) (newName : String) : Student F :=
  { self with name := newName }

/-- Source `Student::setAge`. -/
def Student.setAge (self : Student F) (newAge : Int) : Student F :=
  { self with age := newAge }

/-- Source `Student::addGrade`: `push_back` when `grade >= 0.0 && grade <= 100.0`. -/
def Student.addGrade (self : Student F) (grade : F) : Student F :=
  if grade ≥ 0.0 ∧ grade ≤ 100.0 then
    { self with grades := self.grades ++ [grade] }
  else
    self

/-- Source `Student::getAverageGrade`: 0.0 for no grades, else the running `sum` over the
grades divided by `grades.size()`. -/
def Student.getAverageGrade (self : Student F) : F :=
  if self.grades.isEmpty then
    0.0
  else
    let sum := self.grades.foldl (fun sum grade => sum + grade) 0.0
    sum / (self.grades.length : F)

/-- Source `Student::getAverageGrade` in the arithmetic of the machine: the grades are
binary64 values, each `sum += grade` and the final division round to binary64, and
`grades.size()` is converted to `double` for the division. -/
def Student.getAverageGradeBinary64 (self : Student ℚ) : ℚ :=
  if self.grades.isEmpty then
    0.0
  else
    let sum := self.grades.foldl (fun sum grade => Binary64.roundNearestEven (sum + grade)) 0.0
    Binary64.roundNearestEven (sum / Binary64.roundNearestEven (self.grades.length : ℚ))

/-- Source `Student::displayInfo`: one line, with the average only when there are grades. -/
def Student.displayInfo (fmt : F → String) (self : Student F) : List String :=
  let line := "  Student: " ++ self.name ++ ", Age: " ++ toString self.age
  let line :=
    if !self.grades.isEmpty then line ++ ", Average Grade: " ++ fmt self.getAverageGrade
    else line
  [line]

/-- Source `printStudentDetails` (friend function). -/
def printStudentDetails (student : Student F) : List String :=
  ["  Friend function access: " ++ student.name ++ " is " ++ toString student.age
    ++ " years old"]

/-- Source `Course::Course`. -/
def Course.ctor (name instructorName : String) (creditHours : Int) : Course :=
  { courseName := name, instructor := instructorName, credits := creditHours }

/-- Source `Course::displayCourseInfo`. -/
def Course.displayCourseInfo (self : Course) : List String :=
  ["  Course: " ++ self.courseName ++ ", Instructor: " ++ self.instructor ++ ", Credits: "
    ++ toString self.credits]

/-- Source `Course::getCourseName`. -/
def Course.getCourseName (self : Course) : String := self.courseName

/-- Source `Course::getInstructor`. -/
def Course.getInstructor (self : Course) : String := self.instructor

/-- Source `Course::getCredits`. -/
def Course.getCredits (self : Course) : Int := self.credits

/-! ### Construction, destruction and calls on objects in the state -/

/-- Source `int Student::totalStudents = 0;`: the state before `main`. -/
def State.init : State F := { totalStudents := 0, objects := [], out := [] }

/-- One output statement ending in `std::endl`. -/
def State.println (w : State F) (line : String) : State F :=
  { w with out := w.out ++ [line] }

/-- Source `Student::getTotalStudents` (static). -/
def State.getTotalStudents (w : State F) : Int := w.totalStudents

/-- The object at an address, when it is alive. -/
def State.get (w : State F) (p : Nat) : Option (Student F) :=
  (w.objects[p]?).bind id

/-- Number of `Student` objects alive. -/
def State.liveCount (w : State F) : Nat :=
  (w.objects.filter Option.isSome).length

/-- Source `Student::Student()`: members `name("Unknown")`, `age(0)`, empty `grades`; body
`totalStudents++` and one line. Returns the address of the new object. -/
def Student.ctorDefault (w : State F) : Nat × State F :=
  let self : Student F := { name := "Unknown", age := 0, grades := [] }
  (w.objects.length,
    { totalStudents := w.totalStudents + 1,
      objects := w.objects ++ [some self],
      out := w.out ++ ["  Default constructor called for " ++ self.name] })

/-- Source `Student::Student(const std::string&, int)`. -/
def Student.ctorParam (w : State F) (studentName : String) (studentAge : Int) :
    Nat × State F :=
  let self : Student F := { name := studentName, age := studentAge, grades := [] }
  (w.objects.length,
    { totalStudents := w.totalStudents + 1,
      objects := w.objects ++ [some self],
      out := w.out ++ ["  Parameterized constructor called for " ++ self.name] })

/-- Source `Student::Student(const Student& other)`; `none` when `other` is not alive. -/
def Student.ctorCopy (w : State F) (other : Nat) : Option (Nat × State F) :=
  (w.get other).map fun o =>
    let self : Student F := { name := o.name, age := o.age, grades := o.grades }
    (w.objects.length,
      { totalStudents := w.totalStudents + 1,
        objects := w.objects ++ [some self],
        out := w.out ++ ["  Copy constructor called for " ++ self.name] })

/-- Source `Student::~Student()`: `totalStudents--`, one line, and the object is gone. -/
def Student.dtor (w : State F) (p : Nat) : Option (State F) :=
  (w.get p).map fun self =>
    { totalStudents := w.totalStudents - 1,
      objects := w.objects.set p none,
      out := w.out ++ ["  Destructor called for " ++ self.name] }

/-- Call of `setName` on the object at `p`. -/
def State.setName (w : State F) (p : Nat) (newName : String) : Option (State F) :=
  (w.get p).map fun self => { w with objects := w.objects.set p (some (self.setName newName)) }

/-- Call of `setAge` on the object at `p`. -/
def State.setAge (w : State F) (p : Nat) (newAge : Int) : Option (State F) :=
  (w.get p).map fun self => { w with objects := w.objects.set p (some (self.setAge newAge)) }

/-- Call of `addGrade` on the object at `p`. -/
def State.addGrade (w : State F) (p : Nat) (grade : F) : Option (State F) :=
  (w.get p).map fun self => { w with objects := w.objects.set p (some (self.addGrade grade)) }

/-- Call of `displayInfo` on the object at `p`. -/
def State.displayInfo (fmt : F → String) (w : State F) (p : Nat) : Option (State F) :=
  (w.get p).map fun self => { w with out := w.out ++ self.displayInfo fmt }

/-- Call of `printStudentDetails` on the object at `p`. -/
def State.printStudentDetails (w : State F) (p : Nat) : Option (State F) :=
  (w.get p).map fun self => { w with out := w.out ++ Classes.printStudentDetails self }

end Methods

/-! ### `std::vector<Student>` and `main` -/

section Program

variable {F : Type} [LinearOrderedField F]

/-- Copy-construct the objects at the given addresses one after another; returns the
addresses of the copies. -/
def copyAll : State F → List Nat → Option (List Nat × State F)
  | w, [] => some ([], w)
  | w, p :: rest =>
    (Student.ctorCopy w p).bind fun r =>
      (copyAll r.2 rest).map fun q => (r.1 :: q.1, q.2)

/-- Destroy the objects at the given addresses one after another. -/
def destroyAll : State F → List Nat → Option (State F)
  | w, [] => some w
  | w, p :: rest => (Student.dtor w p).bind fun w1 => destroyAll w1 rest

/-- Library `std::vector<Student>::push_back`, as libstdc++ runs it on a `Student` (which has
a copy constructor and no move constructor, so every element is made by the copy
constructor). With spare capacity the new element is copy-constructed at the end. Otherwise
storage of twice the size (at least 1) is taken, the new element is copy-constructed in it,
the old elements are copy-constructed into it in order, and the old ones are destroyed in
order. -/
def StudentVector.push_back (w : State F) (v : StudentVector) (value : Nat) :
    Option (StudentVector × State F) :=
  if v.elems.length < v.capacity then
    (Student.ctorCopy w value).map fun r => ({ v with elems := v.elems ++ [r.1] }, r.2)
  else do
    let newCapacity := max 1 (2 * v.elems.length)
    let r ← Student.ctorCopy w value
    let q ← copyAll r.2 v.elems
    let w2 ← destroyAll q.2 v.elems
    pure ({ elems := q.1 ++ [r.1], capacity := newCapacity }, w2)

/-- A range-for calling `displayInfo` on each object. -/
def displayAll (fmt : F → String) : State F → List Nat → Option (State F)
  | w, [] => some w
  | w, p :: rest => (w.displayInfo fmt p).bind fun w1 => displayAll fmt w1 rest

/-- Section 1 of `main` (lines 128 to 138), run from the initial state: returns the addresses
of `student1`, `student2`, `student3` and the state. -/
def main.section1 : Nat × Nat × Nat × State F :=
  let w : State F := State.init
  let w := w.println "=== C++ Classes and Objects ==="
  let w := w.println ""
  let w := w.println "1. Creating objects:"
  let r1 := Student.ctorDefault w
  let r2 := Student.ctorParam r1.2 "Alice" 20
  let r3 := Student.ctorParam r2.2 "Bob" 22
  let w := r3.2
  let w := w.println ("   Total students: " ++ toString w.getTotalStudents)
  let w := w.println ""
  (r1.1, r2.1, r3.1, w)

/-- Section 2 of `main` (lines 140 to 145). -/
def main.section2 (fmt : F → String) (student1 : Nat) (w : State F) : Option (State F) := do
  let w := w.println "2. Using setter methods:"
  let w ← w.setName student1 "Charlie"
  let w ← w.setAge student1 19
  let w ← w.displayInfo fmt student1
  pure (w.println "")

/-- Section 3 of `main` (lines 147 to 157). -/
def main.section3 (fmt : F → String) (student2 student3 : Nat) (w : State F) :
    Option (State F) := do
  let w := w.println "3. Adding grades:"
  let w ← w.addGrade student2 85.5
  let w ← w.addGrade student2 92.0
  let w ← w.addGrade student2 78.5
  let w ← w.displayInfo fmt student2
  let w ← w.addGrade student3 95.0
  let w ← w.addGrade student3 88.0
  let w ← w.displayInfo fmt student3
  pure (w.println "")

/-- Section 4 of `main` (lines 159 to 162). -/
def main.section4 (student2 : Nat) (w : State F) : Option (State F) := do
  let w := w.println "4. Using friend function:"
  let w ← w.printStudentDetails student2
  pure (w.println "")

/-- Section 5 of `main` (lines 164 to 169); returns the address of `student4`. -/
def main.section5 (fmt : F → String) (student2 : Nat) (w : State F) :
    Option (Nat × State F) := do
  let w := w.println "5. Copy constructor:"
  let r ← Student.ctorCopy w student2
  let student4 := r.1
  let w := r.2
  let w ← w.setName student4 "David"
  let w ← w.displayInfo fmt student4
  pure (student4, w.println "")

/-- Sections 6 to 8 of `main` and its last lines (lines 171 to 209). The three array elements
are initialised from `Student("Eve", 21)` and so on in place (one constructor call each); each
`push_back(Student(...))` constructs a temporary, passes it to `push_back` and destroys it at
the end of the statement. Returns the value of `return 0` and the state there. -/
def main.sections6to8 (fmt : F → String) (w : State F) : Option (Int × State F) := do
  let w := w.println "6. Composition example:"
  let course1 := Course.ctor "Computer Science 101" "Dr. Smith" 3
  let course2 := Course.ctor "Mathematics 201" "Prof. Johnson" 4
  let w : State F := { w with out := w.out ++ course1.displayCourseInfo }
  let w : State F := { w with out := w.out ++ course2.displayCourseInfo }
  let w := w.println ""
  let w := w.println "7. Object arrays:"
  let e0 := Student.ctorParam w "Eve" 21
  let e1 := Student.ctorParam e0.2 "Frank" 23
  let e2 := Student.ctorParam e1.2 "Grace" 20
  let students : List Nat := [e0.1, e1.1, e2.1]
  let w ← displayAll fmt e2.2 students
  let w := w.println ""
  let w := w.println "8. Vector of objects:"
  let studentVector : StudentVector := { elems := [], capacity := 0 }
  let t1 := Student.ctorParam w "Henry" 24
  let r1 ← studentVector.push_back t1.2 t1.1
  let w ← Student.dtor r1.2 t1.1
  let studentVector := r1.1
  let t2 := Student.ctorParam w "Ivy" 22
  let r2 ← studentVector.push_back t2.2 t2.1
  let w ← Student.dtor r2.2 t2.1
  let studentVector := r2.1
  let w ← displayAll fmt w studentVector.elems
  let w := w.println ""
  let w := w.println ("   Final total students: " ++ toString w.getTotalStudents)
  let w := w.println ""
  let w := w.println "=== End of Classes Example ==="
  pure (0, w)

/-- Source `main` of `classes.cpp` up to and with `return 0`: the returned code and the state
at that point (the destructors of the locals run after it). -/
def main (fmt : F → String) : Option (Int × State F) := do
  let s := main.section1
  let student1 := s.1
  let student2 := s.2.1
  let student3 := s.2.2.1
  let w ← main.section2 fmt student1 s.2.2.2
  let w ← main.section3 fmt student2 student3 w
  let w ← main.section4 student2 w
  let r ← main.section5 fmt student2 w
  main.sections6to8 fmt r.2

/-! ### Call sequences -/

/-- One call that creates, destroys or changes a `Student`: used to speak of the states
reached by any sequence of such calls. -/
inductive Call (F : Type) where
  | ctorDefault
  | ctorParam (studentName : String) (studentAge : Int)
  | ctorCopy (other : Nat)
  | dtor (p : Nat)
  | setName (p : Nat) (newName : String)
  | setAge (p : Nat) (newAge : Int)
  | addGrade (p : Nat) (grade : F)

/-- The state after one call; `none` when the call names an object that is not alive. -/
def State.call (w : State F) : Call F → Option (State F)
  | .ctorDefault => some (Student.ctorDefault w).2
  | .ctorParam n a => some (Student.ctorParam w n a).2
  | .ctorCopy other => (Student.ctorCopy w other).map Prod.snd
  | .dtor p => Student.dtor w p
  | .setName p n => w.setName p n
  | .setAge p a => w.setAge p a
  | .addGrade p g => w.addGrade p g

/-- The state after a sequence of calls. -/
def State.calls : State F → List (Call F) → Option (State F)
  | w, [] => some w
  | w, c :: rest => (w.call c).bind fun w1 => w1.calls rest

end Program

end Classes

/-!
# Functions of `src/basics/functions.cpp`

An `int` is an integer in the 32-bit signed range; an arithmetic result outside the range is
undefined behaviour in C++ and is `none` here. A `double` is an element of a field `F`.
-/

namespace Functions

/-- Least value of a 32-bit signed `int`. -/
def INT_MIN : Int := -2147483648

/-- Greatest value of a 32-bit signed `int`. -/
def INT_MAX : Int := 2147483647

/-- An `int` result: the exact value when it is in range, no result on overflow. -/
def checkedInt (z : Int) : Option Int :=
  if INT_MIN ≤ z ∧ z ≤ INT_MAX then some z else none

/-- Source `add`: `a + b` on `int`. -/
def add (a b : Int) : Option Int := checkedInt (a + b)

/-- Source `printMessage`. -/
def printMessage (message : String) : List String := ["  Message: " ++ message]

/-- Source `calculateArea(length, width)`; the declaration gives `width` the default 1.0. -/
def calculateArea {F : Type} [Field F] (length width : F) : F := length * width

/-- Source `multiply(int, int)`. -/
def multiply (a b : Int) : Option Int := checkedInt (a * b)

/-- Source `multiply(double, double)` (an overload of `multiply`). -/
def multiplyDouble {F : Type} [Field F] (a b : F) : F := a * b

/-- Source `multiply(int, int, int)` (an overload of `multiply`): `a * b * c`. -/
def multiply3 (a b c : Int) : Option Int :=
  (checkedInt (a * b)).bind fun ab => checkedInt (ab * c)

/-- Source `swap(int& a, int& b)`: the values of the two referenced variables after the
call. -/
def swap (a b : Int) : Int × Int :=
  let temp := a
  let a := b
  let b := temp
  (a, b)

/-- Source `modifyVector`: `element *= 2` on each element in turn. -/
def modifyVector : List Int → Option (List Int)
  | [] => some []
  | element :: rest =>
    (checkedInt (element * 2)).bind fun e => (modifyVector rest).map fun r => e :: r

/-- Source `factorial`: 1 when `n <= 1`, else `n * factorial(n - 1)`. Here `n - 1` is
computed only for `n > 1` and cannot overflow. -/
def factorial (n : Int) : Option Int :=
  if n ≤ 1 then some 1
  else (factorial (n - 1)).bind fun r => checkedInt (n * r)
termination_by n.toNat
decreasing_by omega

/-- Source `factorial`, run with a bound on the depth of nested calls: `none` when the bound
is used up before the base case is reached, else the outcome of the call (a value, or no
value after an overflowing product). -/
def factorial.within : Nat → Int → Option (Option Int)
  | 0, _ => none
  | depth + 1, n =>
    if n ≤ 1 then some (some 1)
    else (factorial.within depth (n - 1)).map fun r => r.bind fun v => checkedInt (n * v)

/-- Source `swap(int& a, int& b)` on variables in memory: `a` and `b` are the addresses the
two references are bound to (possibly the same variable); `none` when one of them is not the
address of a variable. -/
def swapRefs (vars : List Int) (a b : Nat) : Option (List Int) := do
  let temp ← vars[a]?
  let vb ← vars[b]?
  let vars := vars.set a vb
  let vars := vars.set b temp
  pure vars

/-- Source `demonstrateLambda`: the three lambdas `square`, `multiplyBy` (capturing
`multiplier` by value) and `addToSum` (capturing `sum` by reference), and the lines printed;
takes and returns the console lines. -/
def demonstrateLambda (out : List String) : Option (List String) := do
  let square := fun (x : Int) => checkedInt (x * x)
  let r1 ← square 5
  let out := out ++ ["  square(5) = " ++ toString r1]
  let multiplier : Int := 3
  let multiplyBy := fun (x : Int) => checkedInt (x * multiplier)
  let r2 ← multiplyBy 4
  let out := out ++ ["  multiplyBy(4) = " ++ toString r2]
  let sum : Int := 0
  let addToSum := fun (sum x : Int) => checkedInt (sum + x)
  let sum ← addToSum sum 10
  let sum ← addToSum sum 20
  pure (out ++ ["  sum after adding 10 and 20 = " ++ toString sum])

/-- A range-for writing each `num` followed by a blank onto the current line. -/
def printNumbers (line : String) (numbers : List Int) : String :=
  numbers.foldl (fun line num => line ++ toString num ++ " ") line

/-- Sections 1 to 4 of `main` (lines 37 to 67). -/
def main.sections1to4 {F : Type} [Field F] (fmt : F → String) : Option (List String) := do
  let out : List String := []
  let out := out ++ ["=== C++ Functions ==="]
  let out := out ++ [""]
  let out := out ++ ["1. Basic function call:"]
  let result ← add 5 3
  let out := out ++ ["  add(5, 3) = " ++ toString result]
  let out := out ++ [""]
  let out := out ++ ["2. Function with string parameter:"]
  let out := out ++ printMessage "Hello from function!"
  let out := out ++ [""]
  let out := out ++ ["3. Function with default parameter:"]
  let area1 : F := calculateArea 5.0 3.0
  let area2 : F := calculateArea 5.0 1.0
  let out := out ++ ["  calculateArea(5.0, 3.0) = " ++ fmt area1]
  let out := out ++ ["  calculateArea(5.0) = " ++ fmt area2]
  let out := out ++ [""]
  let out := out ++ ["4. Function overloading:"]
  let intResult ← multiply 4 5
  let doubleResult : F := multiplyDouble 4.5 2.5
  let tripleResult ← multiply3 2 3 4
  let out := out ++ ["  multiply(4, 5) = " ++ toString intResult]
  let out := out ++ ["  multiply(4.5, 2.5) = " ++ fmt doubleResult]
  let out := out ++ ["  multiply(2, 3, 4) = " ++ toString tripleResult]
  pure (out ++ [""])

/-- Sections 5 and 6 of `main` (lines 69 to 91). -/
def main.sections5to6 (out : List String) : Option (List String) := do
  let out := out ++ ["5. Pass by reference:"]
  let x : Int := 10
  let y : Int := 20
  let out := out ++ ["  Before swap: x = " ++ toString x ++ ", y = " ++ toString y]
  let r := swap x y
  let x := r.1
  let y := r.2
  let out := out ++ ["  After swap: x = " ++ toString x ++ ", y = " ++ toString y]
  let out := out ++ [""]
  let out := out ++ ["6. Pass by reference with vector:"]
  let numbers : List Int := [1, 2, 3, 4, 5]
  let out := out ++ [printNumbers "  Original vector: " numbers]
  let numbers ← modifyVector numbers
  let out := out ++ [printNumbers "  Modified vector: " numbers]
  pure (out ++ [""])

/-- Sections 7 and 8 of `main` and its last line (lines 93 to 105). -/
def main.sections7to8 (out : List String) : Option (List String) := do
  let out := out ++ ["7. Recursive function (factorial):"]
  let n : Int := 5
  let fact ← factorial n
  let out := out ++ ["  factorial(" ++ toString n ++ ") = " ++ toString fact]
  let out := out ++ [""]
  let out := out ++ ["8. Lambda functions:"]
  let out ← demonstrateLambda out
  let out := out ++ [""]
  pure (out ++ ["=== End of Functions Example ==="])

/-- Source `main` of `functions.cpp`: the code of `return 0` and the console lines. -/
def main {F : Type} [Field F] (fmt : F → String) : Option (Int × List String) := do
  let out ← main.sections1to4 fmt
  let out ← main.sections5to6 out
  let out ← main.sections7to8 out
  pure (0, out)

end Functions

/-!
# The nine programs' `main` functions

Each `main` is given as the code of its `return` statement together with the console lines
written up to it. None of them has parameters.
-/

namespace Welcome

/-- Source `main` of `src/main.cpp`: output statements only, then `return 0`. -/
def main : Int × List String :=
  let out : List String :=
    ["===========================================",
     "    Welcome to C++ Learning Project!",
     "===========================================",
     "",
     "This project contains various C++ examples:",
     "1. Basic concepts (variables, loops, functions)",
     "2. Object-oriented programming",
     "3. STL containers and algorithms",
     "",
     "To run specific examples, use:",
     "  ./basics_variables    - Variable examples",
     "  ./basics_loops        - Loop examples",
     "  ./basics_functions    - Function examples",
     "  ./oop_classes         - Class examples",
     "  ./oop_inheritance     - Inheritance examples",
     "  ./oop_polymorphism    - Polymorphism examples",
     "  ./stl_containers      - STL container examples",
     "  ./stl_algorithms      - STL algorithm examples",
     "",
     "Happy learning! 🚀"]
  (0, out)

end Welcome

namespace Variables

/-- The text `operator<<` writes for a `float`, a `double` and a `long double`. -/
structure FloatLib (F : Type) where
  fmtFloat : F → String
  fmtDouble : F → String
  fmtLongDouble : F → String

/-- Source `main` of `variables.cpp`: declarations and output statements, then
`return 0`. Integer variables are integers, floating-point variables are elements of `F`. -/
def main {F : Type} [Field F] (L : FloatLib F) : Int × List String :=
  let out : List String := []
  let out := out ++ ["=== C++ Variables and Data Types ==="]
  let out := out ++ [""]
  let age : Int := 25
  let smallNumber : Int := 100
  let bigNumber : Int := 1000000
  let hugeNumber : Int := 1000000000
  let out := out ++ ["Integer types:"]
  let out := out ++ ["  int age = " ++ toString age]
  let out := out ++ ["  short smallNumber = " ++ toString smallNumber]
  let out := out ++ ["  long bigNumber = " ++ toString bigNumber]
  let out := out ++ ["  long long hugeNumber = " ++ toString hugeNumber]
  let out := out ++ [""]
  let pi : F := 3.14159
  let e : F := 2.718281828
  let precision : F := 3.141592653589793238
  let out := out ++ ["Floating point types:"]
  let out := out ++ ["  float pi = " ++ L.fmtFloat pi]
  let out := out ++ ["  double e = " ++ L.fmtDouble e]
  let out := out ++ ["  long double precision = " ++ L.fmtLongDouble precision]
  let out := out ++ [""]
  let letter : Char := 'A'
  let newline : Char := '\n'
  let tab : Char := '\t'
  let out := out ++ ["Character types:"]
  let out := out ++ ["  char letter = '" ++ String.singleton letter ++ "'"]
  let out := out ++ ["  char newline = '\\n' (newline character)"]
  let out := out ++ ["  char tab = '\\t' (tab character)"]
  let out := out ++ [""]
  let isStudent : Bool := true
  let isWorking : Bool := false
  let out := out ++ ["Boolean types:"]
  let out := out ++ ["  bool isStudent = " ++ toString isStudent]
  let out := out ++ ["  bool isWorking = " ++ toString isWorking]
  let out := out ++ [""]
  let name : String := "John Doe"
  let greeting : String := "Hello, " ++ name ++ "!"
  let out := out ++ ["String types:"]
  let out := out ++ ["  std::string name = \"" ++ name ++ "\""]
  let out := out ++ ["  std::string greeting = \"" ++ greeting ++ "\""]
  let out := out ++ [""]
  let MAX_STUDENTS : Int := 100
  let GRAVITY : F := 9.81
  let out := out ++ ["Constants:"]
  let out := out ++ ["  const int MAX_STUDENTS = " ++ toString MAX_STUDENTS]
  let out := out ++ ["  const double GRAVITY = " ++ L.fmtDouble GRAVITY]
  let out := out ++ [""]
  let autoInt : Int := 42
  let autoDouble : F := 3.14
  let autoString : String := "Hello"
  let out := out ++ ["Auto keyword (type deduction):"]
  let out := out ++ ["  auto autoInt = " ++ toString autoInt ++ " (deduced as int)"]
  let out := out ++ ["  auto autoDouble = " ++ L.fmtDouble autoDouble ++ " (deduced as double)"]
  let out := out ++ ["  auto autoString = \"" ++ autoString ++ "\" (deduced as const char*)"]
  let out := out ++ [""]
  let out := out ++ ["=== End of Variables Example ==="]
  (0, out)

end Variables

namespace Loops

/-- Loop 1: `for (int i = 1; i <= 5; ++i)`. The first argument bounds the number of
iterations; `none` when it is used up. -/
def main.loop1 : Nat → Int → List String → Option (List String)
  | 0, _, _ => none
  | fuel + 1, i, out =>
    if i ≤ 5 then main.loop1 fuel (i + 1) (out ++ ["  Iteration " ++ toString i])
    else some out

/-- Loop 2: `for (int i = 0; i < 10; i += 2)`. -/
def main.loop2 : Nat → Int → List String → Option (List String)
  | 0, _, _ => none
  | fuel + 1, i, out =>
    if i < 10 then main.loop2 fuel (i + 2) (out ++ ["  Even number: " ++ toString i])
    else some out

/-- Loop 3: `while (count <= 3)` with `count++` in the body. -/
def main.loop3 : Nat → Int → List String → Option (List String)
  | 0, _, _ => none
  | fuel + 1, count, out =>
    if count ≤ 3 then main.loop3 fuel (count + 1) (out ++ ["  Count: " ++ toString count])
    else some out

/-- Loop 4: `do ... while (number > 0)`: the body runs before the test. -/
def main.loop4 : Nat → Int → List String → Option (List String)
  | 0, _, _ => none
  | fuel + 1, number, out =>
    let out := out ++ ["  Number: " ++ toString number]
    let number := number - 1
    if number > 0 then main.loop4 fuel number out else some out

/-- Loop 5, inner: `for (int j = 1; j <= 3; ++j)` for a given `i`. -/
def main.loop5.inner (i : Int) : Nat → Int → List String → Option (List String)
  | 0, _, _ => none
  | fuel + 1, j, out =>
    if j ≤ 3 then
      main.loop5.inner i fuel (j + 1)
        (out ++ ["  " ++ toString i ++ " x " ++ toString j ++ " = " ++ toString (i * j)])
    else some out

/-- Loop 5, outer: `for (int i = 1; i <= 3; ++i)`. -/
def main.loop5 : Nat → Int → List String → Option (List String)
  | 0, _, _ => none
  | fuel + 1, i, out =>
    if i ≤ 3 then
      (main.loop5.inner i 100 1 out).bind fun out1 => main.loop5 fuel (i + 1) out1
    else some out

/-- Loop 8: `for (int i = 1; i <= 10; ++i)` with `continue` at 5 and `break` at 8. -/
def main.loop8 : Nat → Int → List String → Option (List String)
  | 0, _, _ => none
  | fuel + 1, i, out =>
    if i ≤ 10 then
      if i = 5 then main.loop8 fuel (i + 1) out
      else if i = 8 then some out
      else main.loop8 fuel (i + 1) (out ++ ["  " ++ toString i])
    else some out

/-- Loop 9: `while (true)` left by `break` once `counter >= 3`. -/
def main.loop9 : Nat → Int → List String → Option (List String)
  | 0, _, _ => none
  | fuel + 1, counter, out =>
    let counter := counter + 1
    let out := out ++ ["  Counter: " ++ toString counter]
    if counter ≥ 3 then some out else main.loop9 fuel counter out

/-- Loop 10: `for (int i = 0, j = 10; i < 5; ++i, --j)`. -/
def main.loop10 : Nat → Int → Int → List String → Option (List String)
  | 0, _, _, _ => none
  | fuel + 1, i, j, out =>
    if i < 5 then
      main.loop10 fuel (i + 1) (j - 1)
        (out ++ ["  i = " ++ toString i ++ ", j = " ++ toString j])
    else some out

/-- Sections 1 to 5 of `main` of `loops.cpp` (lines 15 to 57). -/
def main.sections1to5 : Option (List String) := do
  let out : List String := []
  let out := out ++ ["=== C++ Loops ==="]
  let out := out ++ [""]
  let out := out ++ ["1. Traditional for loop:"]
  let out ← main.loop1 100 1 out
  let out := out ++ [""]
  let out := out ++ ["2. For loop with step 2:"]
  let out ← main.loop2 100 0 out
  let out := out ++ [""]
  let out := out ++ ["3. While loop:"]
  let count : Int := 1
  let out ← main.loop3 100 count out
  let out := out ++ [""]
  let out := out ++ ["4. Do-while loop:"]
  let number : Int := 5
  let out ← main.loop4 100 number out
  let out := out ++ [""]
  let out := out ++ ["5. Nested loops (multiplication table):"]
  let out ← main.loop5 100 1 out
  pure (out ++ [""])

/-- Sections 6 to 10 of `main` of `loops.cpp` and its last line (lines 59 to 108); the two
range-for loops run once per element of the array and of the vector. -/
def main.sections6to10 (out : List String) : Option (List String) := do
  let out := out ++ ["6. Range-based for loop with array:"]
  let numbers : List Int := [10, 20, 30, 40, 50]
  let out := numbers.foldl (fun out num => out ++ ["  Array element: " ++ toString num]) out
  let out := out ++ [""]
  let out := out ++ ["7. Range-based for loop with vector:"]
  let fruits : List String := ["apple", "banana", "orange", "grape"]
  let out := fruits.foldl (fun out fruit => out ++ ["  Fruit: " ++ fruit]) out
  let out := out ++ [""]
  let out := out ++ ["8. Loop control statements (break and continue):"]
  let out := out ++ ["   Numbers 1-10, skip 5, stop at 8:"]
  let out ← main.loop8 100 1 out
  let out := out ++ [""]
  let out := out ++ ["9. Controlled infinite loop:"]
  let counter : Int := 0
  let out ← main.loop9 100 counter out
  let out := out ++ [""]
  let out := out ++ ["10. For loop with multiple variables:"]
  let out ← main.loop10 100 0 10 out
  let out := out ++ [""]
  pure (out ++ ["=== End of Loops Example ==="])

/-- Source `main` of `loops.cpp`: the code of `return 0` and the console lines. -/
def main : Option (Int × List String) := do
  let out ← main.sections1to5
  let out ← main.sections6to10 out
  pure (0, out)

end Loops

namespace Inheritance

/-- Data members of `class Animal`. -/
structure Animal where
  name : String
  age : Int

/-- Members of `class Dog : public Animal`. -/
structure Dog extends Animal where
  breed : String

/-- Members of `class Cat : public Animal`. -/
structure Cat extends Animal where
  isIndoor : Bool

/-- Members of `class Bird : public Animal, public Flyable` (`Flyable` has no data). -/
structure Bird (F : Type) extends Animal where
  wingspan : F

/-- A complete object as seen through an `Animal*` or `Animal&`. -/
inductive AnyAnimal (F : Type) where
  | dog (d : Dog)
  | cat (c : Cat)
  | bird (b : Bird F)

/-- Data member of `class LivingThing`. -/
structure LivingThing where
  species : String

/-- Members of `class Mammal : virtual public LivingThing`. -/
structure Mammal extends LivingThing

/-- Members of `class WingedAnimal : virtual public LivingThing`. -/
structure WingedAnimal extends LivingThing

/-- Members of `class Bat : public Mammal, public WingedAnimal`: the virtual base
`LivingThing` is there once. -/
structure Bat extends LivingThing

/-- Source `Animal::Animal`. -/
def Animal.ctor (animalName : String) (animalAge : Int) : Animal × List String :=
  let self : Animal := { name := animalName, age := animalAge }
  (self, ["  Animal constructor called for " ++ self.name])

/-- Source `Animal::~Animal`. -/
def Animal.dtor (self : Animal) : List String :=
  ["  Animal destructor called for " ++ self.name]

/-- Source `Animal::makeSound` (the base version). -/
def Animal.makeSound (self : Animal) : List String :=
  ["  " ++ self.name ++ " makes a generic animal sound"]

/-- Source `Animal::eat`. -/
def Animal.eat (self : Animal) : List String := ["  " ++ self.name ++ " is eating"]

/-- Source `Animal::getName`. -/
def Animal.getName (self : Animal) : String := self.name

/-- Source `Animal::getAge`. -/
def Animal.getAge (self : Animal) : Int := self.age

/-- Source `Dog::Dog`. -/
def Dog.ctor (dogName : String) (dogAge : Int) (dogBreed : String) : Dog × List String :=
  let b := Animal.ctor dogName dogAge
  let self : Dog := { toAnimal := b.1, breed := dogBreed }
  (self, b.2 ++ ["  Dog constructor called for " ++ self.name])

/-- Source `Dog::~Dog`, followed by the base destructor. -/
def Dog.dtor (self : Dog) : List String :=
  ["  Dog destructor called for " ++ self.name] ++ self.toAnimal.dtor

/-- Source `Dog::makeSound`. -/
def Dog.makeSound (self : Dog) : List String := ["  " ++ self.name ++ " barks: Woof! Woof!"]

/-- Source `Dog::move`. -/
def Dog.move (self : Dog) : List String := ["  " ++ self.name ++ " runs on four legs"]

/-- Source `Dog::fetch`. -/
def Dog.fetch (self : Dog) : List String := ["  " ++ self.name ++ " fetches the ball"]

/-- Source `Dog::getBreed`. -/
def Dog.getBreed (self : Dog) : String := self.breed

/-- Source `Cat::Cat` (the declaration gives `indoor` the default `true`). -/
def Cat.ctor (catName : String) (catAge : Int) (indoor : Bool) : Cat × List String :=
  let b := Animal.ctor catName catAge
  let self : Cat := { toAnimal := b.1, isIndoor := indoor }
  (self, b.2 ++ ["  Cat constructor called for " ++ self.name])

/-- Source `Cat::~Cat`, followed by the base destructor. -/
def Cat.dtor (self : Cat) : List String :=
  ["  Cat destructor called for " ++ self.name] ++ self.toAnimal.dtor

/-- Source `Cat::makeSound`. -/
def Cat.makeSound (self : Cat) : List String := ["  " ++ self.name ++ " meows: Meow! Meow!"]

/-- Source `Cat::move`. -/
def Cat.move (self : Cat) : List String := ["  " ++ self.name ++ " walks silently"]

/-- Source `Cat::climb`. -/
def Cat.climb (self : Cat) : List String := ["  " ++ self.name ++ " climbs the tree"]

/-- Source `Cat::getIsIndoor`. -/
def Cat.getIsIndoor (self : Cat) : Bool := self.isIndoor

section BirdMethods

variable {F : Type}

/-- Source `Bird::Bird`. -/
def Bird.ctor (birdName : String) (birdAge : Int) (birdWingspan : F) : Bird F × List String :=
  let b := Animal.ctor birdName birdAge
  let self : Bird F := { toAnimal := b.1, wingspan := birdWingspan }
  (self, b.2 ++ ["  Bird constructor called for " ++ self.name])

/-- Source `Bird::~Bird`, followed by the base destructors (`~Flyable` prints nothing). -/
def Bird.dtor (self : Bird F) : List String :=
  ["  Bird destructor called for " ++ self.name] ++ self.toAnimal.dtor

/-- Source `Bird::makeSound`. -/
def Bird.makeSound (self : Bird F) : List String :=
  ["  " ++ self.name ++ " chirps: Tweet! Tweet!"]

/-- Source `Bird::move`. -/
def Bird.move (self : Bird F) : List String := ["  " ++ self.name ++ " flies through the air"]

/-- Source `Bird::fly`. -/
def Bird.fly (fmt : F → String) (self : Bird F) : List String :=
  ["  " ++ self.name ++ " soars with " ++ fmt self.wingspan ++ "cm wingspan"]

/-- Source `Bird::getWingspan`. -/
def Bird.getWingspan (self : Bird F) : F := self.wingspan

/-- The `Animal` base subobject of a complete object. -/
def AnyAnimal.toAnimal : AnyAnimal F → Animal
  | .dog d => d.toAnimal
  | .cat c => c.toAnimal
  | .bird b => b.toAnimal

/-- Virtual call `animal->makeSound()`. -/
def AnyAnimal.makeSound : AnyAnimal F → List String
  | .dog d => d.makeSound
  | .cat c => c.makeSound
  | .bird b => b.makeSound

/-- Virtual call `animal->move()`. -/
def AnyAnimal.move : AnyAnimal F → List String
  | .dog d => d.move
  | .cat c => c.move
  | .bird b => b.move

/-- Statement `delete animal`: the virtual destructor of the dynamic type runs. -/
def AnyAnimal.delete : AnyAnimal F → List String
  | .dog d => d.dtor
  | .cat c => c.dtor
  | .bird b => b.dtor

end BirdMethods

/-- Source `LivingThing::LivingThing`. -/
def LivingThing.ctor (sp : String) : LivingThing := { species := sp }

/-- Source `LivingThing::breathe`. -/
def LivingThing.breathe (self : LivingThing) : List String :=
  ["  " ++ self.species ++ " breathes"]

/-- Source `Mammal::Mammal`, for a complete `Mammal` object. -/
def Mammal.ctor (sp : String) : Mammal := { toLivingThing := LivingThing.ctor sp }

/-- Source `Mammal::breathe`. -/
def Mammal.breathe (self : Mammal) : List String :=
  ["  " ++ self.species ++ " breathes with lungs"]

/-- Source `WingedAnimal::WingedAnimal`, for a complete `WingedAnimal` object. -/
def WingedAnimal.ctor (sp : String) : WingedAnimal := { toLivingThing := LivingThing.ctor sp }

/-- Source `WingedAnimal::breathe`. -/
def WingedAnimal.breathe (self : WingedAnimal) : List String :=
  ["  " ++ self.species ++ " breathes efficiently for flight"]

/-- Source `Bat::Bat`: as the most derived class it initialises the virtual base itself,
`LivingThing("Bat")`; the `Mammal("Bat")` and `WingedAnimal("Bat")` initialisers then leave
the virtual base alone. -/
def Bat.ctor : Bat := { toLivingThing := LivingThing.ctor "Bat" }

/-- Source `Bat::breathe`. -/
def Bat.breathe (_self : Bat) : List String :=
  ["  Bat breathes with lungs optimized for flight"]

/-- Source `Mammal::Mammal` run for the `Mammal` base part of a more derived object: the
virtual base has been initialised by the most derived class and `LivingThing(sp)` is not
run. -/
def Mammal.ctorBase (_sp : String) (vbase : LivingThing) : Mammal := { toLivingThing := vbase }

/-- Source `WingedAnimal::WingedAnimal` run for the `WingedAnimal` base part of a more
derived object: `LivingThing(sp)` is not run. -/
def WingedAnimal.ctorBase (_sp : String) (vbase : LivingThing) : WingedAnimal :=
  { toLivingThing := vbase }

/-- The `Mammal` base part of a `Bat`: it has the `LivingThing` of the `Bat`. -/
def Bat.toMammal (self : Bat) : Mammal := { toLivingThing := self.toLivingThing }

/-- The `WingedAnimal` base part of a `Bat`: it has the `LivingThing` of the `Bat`. -/
def Bat.toWingedAnimal (self : Bat) : WingedAnimal := { toLivingThing := self.toLivingThing }

/-- The steps of `Bat::Bat` in the order C++ runs them: the virtual base `LivingThing("Bat")`
first, then the base parts `Mammal("Bat")` and `WingedAnimal("Bat")`; returns the object and
its two base parts. -/
def Bat.ctorSteps : Bat × Mammal × WingedAnimal :=
  let vbase := LivingThing.ctor "Bat"
  let m := Mammal.ctorBase "Bat" vbase
  let w := WingedAnimal.ctorBase "Bat" vbase
  ({ toLivingThing := vbase }, m, w)

/-- A complete object as seen through a `LivingThing&`. -/
inductive AnyLivingThing where
  | livingThing (l : LivingThing)
  | mammal (m : Mammal)
  | wingedAnimal (w : WingedAnimal)
  | bat (b : Bat)

/-- A complete object as seen through a `Mammal&`. -/
inductive AnyMammal where
  | mammal (m : Mammal)
  | bat (b : Bat)

/-- A complete object as seen through a `WingedAnimal&`. -/
inductive AnyWingedAnimal where
  | wingedAnimal (w : WingedAnimal)
  | bat (b : Bat)

/-- Virtual call `ref.breathe()` through a `LivingThing&`: the final overrider of the dynamic
type runs. -/
def AnyLivingThing.breathe : AnyLivingThing → List String
  | .livingThing l => l.breathe
  | .mammal m => m.breathe
  | .wingedAnimal w => w.breathe
  | .bat b => b.breathe

/-- Virtual call `ref.breathe()` through a `Mammal&`. -/
def AnyMammal.breathe : AnyMammal → List String
  | .mammal m => m.breathe
  | .bat b => b.breathe

/-- Virtual call `ref.breathe()` through a `WingedAnimal&`. -/
def AnyWingedAnimal.breathe : AnyWingedAnimal → List String
  | .wingedAnimal w => w.breathe
  | .bat b => b.breathe

/-- Conversion of a `Mammal&` to a `LivingThing&`: the same object. -/
def AnyMammal.toLivingThingRef : AnyMammal → AnyLivingThing
  | .mammal m => .mammal m
  | .bat b => .bat b

/-- Conversion of a `WingedAnimal&` to a `LivingThing&`: the same object. -/
def AnyWingedAnimal.toLivingThingRef : AnyWingedAnimal → AnyLivingThing
  | .wingedAnimal w => .wingedAnimal w
  | .bat b => .bat b

/-- The `LivingThing` part reached through a `LivingThing&`. -/
def AnyLivingThing.toLivingThing : AnyLivingThing → LivingThing
  | .livingThing l => l
  | .mammal m => m.toLivingThing
  | .wingedAnimal w => w.toLivingThing
  | .bat b => b.toLivingThing

section Program

variable {F : Type} [Field F]

/-- Sections 1 to 3 of `main` of `inheritance.cpp` (lines 193 to 224). -/
def main.sections1to3 (fmt : F → String) : List String :=
  let out : List String := []
  let out := out ++ ["=== C++ Inheritance ==="]
  let out := out ++ [""]
  let out := out ++ ["1. Single inheritance:"]
  let r := Dog.ctor "Buddy" 3 "Golden Retriever"
  let dog := r.1
  let out := out ++ r.2
  let out := out ++ dog.makeSound
  let out := out ++ dog.move
  let out := out ++ dog.eat
  let out := out ++ dog.fetch
  let out := out ++ ["   Breed: " ++ dog.getBreed]
  let out := out ++ [""]
  let out := out ++ ["2. Another single inheritance example:"]
  let r := Cat.ctor "Whiskers" 2 true
  let cat := r.1
  let out := out ++ r.2
  let out := out ++ cat.makeSound
  let out := out ++ cat.move
  let out := out ++ cat.eat
  let out := out ++ cat.climb
  let out := out ++ ["   Indoor cat: " ++ (if cat.getIsIndoor then "Yes" else "No")]
  let out := out ++ [""]
  let out := out ++ ["3. Multiple inheritance:"]
  let r := Bird.ctor "Tweety" 1 (25.5 : F)
  let bird := r.1
  let out := out ++ r.2
  let out := out ++ bird.makeSound
  let out := out ++ bird.move
  let out := out ++ bird.fly fmt
  let out := out ++ bird.eat
  let out := out ++ ["   Wingspan: " ++ fmt bird.getWingspan ++ "cm"]
  out ++ [""]

/-- Section 4 of `main` (lines 226 to 245): three objects made by `new`, used through
`Animal*` and deleted. -/
def main.section4 (out : List String) : List String :=
  let out := out ++ ["4. Polymorphism with pointers:"]
  let r1 := Dog.ctor "Max" 4 "German Shepherd"
  let out := out ++ r1.2
  let r2 := Cat.ctor "Luna" 3 false
  let out := out ++ r2.2
  let r3 := Bird.ctor "Eagle" 2 (180.0 : F)
  let out := out ++ r3.2
  let animals : List (AnyAnimal F) := [.dog r1.1, .cat r2.1, .bird r3.1]
  let out := animals.foldl (fun out animal =>
    let out := out ++ ["   " ++ animal.toAnimal.getName ++ " (age "
      ++ toString animal.toAnimal.getAge ++ "):"]
    let out := out ++ animal.makeSound
    let out := out ++ animal.move
    let out := out ++ animal.toAnimal.eat
    out ++ [""]) out
  let out := animals.foldl (fun out animal => out ++ animal.delete) out
  out ++ [""]

/-- Sections 5 and 6 of `main` and its last line (lines 247 to 265). -/
def main.sections5to6 (out : List String) : List String :=
  let out := out ++ ["5. Virtual inheritance (diamond problem):"]
  let bat := Bat.ctor
  let out := out ++ bat.breathe
  let out := out ++ [""]
  let out := out ++ ["6. Polymorphism with references:"]
  let r := Dog.ctor "Rex" 5 "Labrador"
  let anotherDog := r.1
  let out := out ++ r.2
  let r := Cat.ctor "Mittens" 4 true
  let anotherCat := r.1
  let out := out ++ r.2
  let animalRef1 : AnyAnimal F := .dog anotherDog
  let animalRef2 : AnyAnimal F := .cat anotherCat
  let out := out ++ animalRef1.makeSound
  let out := out ++ animalRef2.makeSound
  let out := out ++ [""]
  out ++ ["=== End of Inheritance Example ==="]

/-- Source `main` of `inheritance.cpp`: the code of `return 0` and the console lines up to
it (the destructors of the locals run after it). -/
def main (fmt : F → String) : Int × List String :=
  let out := main.sections1to3 fmt
  let out := main.section4 (F := F) out
  let out := main.sections5to6 (F := F) out
  (0, out)

end Program

end Inheritance

namespace Containers

/-- The ten `void` functions of `containers.cpp` that `main` calls, each as what it does to
the console lines (`none` when it does not return). Their bodies work on standard containers
and write text only; `main` takes nothing from them, so they are parameters here. -/
structure Demos where
  demonstrateVector : List String → Option (List String)
  demonstrateList : List String → Option (List String)
  demonstrateDeque : List String → Option (List String)
  demonstrateSet : List String → Option (List String)
  demonstrateMap : List String → Option (List String)
  demonstrateUnorderedContainers : List String → Option (List String)
  demonstrateStack : List String → Option (List String)
  demonstrateQueue : List String → Option (List String)
  demonstratePriorityQueue : List String → Option (List String)
  demonstrateArray : List String → Option (List String)

/-- Source `main` of `containers.cpp`: two lines, the ten calls in order, one line, then
`return 0`. -/
def main (d : Demos) : Option (Int × List String) := do
  let out : List String := []
  let out := out ++ ["=== STL Containers ==="]
  let out := out ++ [""]
  let out ← d.demonstrateVector out
  let out ← d.demonstrateList out
  let out ← d.demonstrateDeque out
  let out ← d.demonstrateSet out
  let out ← d.demonstrateMap out
  let out ← d.demonstrateUnorderedContainers out
  let out ← d.demonstrateStack out
  let out ← d.demonstrateQueue out
  let out ← d.demonstratePriorityQueue out
  let out ← d.demonstrateArray out
  let out := out ++ ["=== End of STL Containers Example ==="]
  pure (0, out)

end Containers

namespace Algorithms

/-- The eight `void` functions of `algorithms.cpp` that `main` calls, each as what it does
to the console lines (`none` when it does not return); parameters for the same reason as in
`Containers.Demos`. -/
structure Demos where
  demonstrateNonModifyingAlgorithms : List String → Option (List String)
  demonstrateModifyingAlgorithms : List String → Option (List String)
  demonstrateSortingAlgorithms : List String → Option (List String)
  demonstrateBinarySearchAlgorithms : List String → Option (List String)
  demonstrateSetAlgorithms : List String → Option (List String)
  demonstrateHeapAlgorithms : List String → Option (List String)
  demonstrateNumericAlgorithms : List String → Option (List String)
  demonstratePermutationAlgorithms : List String → Option (List String)

/-- Source `main` of `algorithms.cpp`: two lines, the eight calls in order, one line, then
`return 0`. -/
def main (d : Demos) : Option (Int × List String) := do
  let out : List String := []
  let out := out ++ ["=== STL Algorithms ==="]
  let out := out ++ [""]
  let out ← d.demonstrateNonModifyingAlgorithms out
  let out ← d.demonstrateModifyingAlgorithms out
  let out ← d.demonstrateSortingAlgorithms out
  let out ← d.demonstrateBinarySearchAlgorithms out
  let out ← d.demonstrateSetAlgorithms out
  let out ← d.demonstrateHeapAlgorithms out
  let out ← d.demonstrateNumericAlgorithms out
  let out ← d.demonstratePermutationAlgorithms out
  let out := out ++ ["=== End of STL Algorithms Example ==="]
  pure (0, out)

end Algorithms

/-! ## Theorems -/

namespace Polymorphism

/-! ### Lemmas on lists, `move` and the two loops -/

theorem forall₂_of_mem {α β : Type} {R Q : α → β → Prop} {l₁ : List α} {l₂ : List β}
    (h : List.Forall₂ R l₁ l₂) : (∀ a ∈ l₁, ∀ b, R a b → Q a b) → List.Forall₂ Q l₁ l₂ := by
  induction h with
  | nil => intro _; exact .nil
  | cons hab _ ih =>
    intro himp
    exact .cons (himp _ (List.mem_cons_self _ _) _ hab)
      (ih fun a ha b hr => himp a (List.mem_cons_of_mem _ ha) b hr)

theorem AnyShape.move_fst {F : Type} [Field F] (L : DoubleLib F) (S : AnyShape F)
    (newX newY : F) :
    (S.move L newX newY).1 = S.withShape { S.toShape with x := newX, y := newY } := by
  cases S <;> rfl

theorem demonstratePolymorphism.body_eq {F : Type} [Field F] (L : DoubleLib F) (w : World F)
    (p : Nat) (S : AnyShape F) (hp : w.heap[p]? = some S) :
    demonstratePolymorphism.body L w p
      = some ⟨w.heap.set p (S.withShape { S.toShape with x := S.getX + 10, y := S.getY + 10 }),
          w.out ++ ("" :: (Shape.displayInfo L S ++ S.draw L
            ++ (S.move L (S.getX + 10) (S.getY + 10)).2))⟩ := by
  simp [demonstratePolymorphism.body, World.println, World.displayInfo, World.draw,
    World.getX, World.getY, World.move, hp, AnyShape.move_fst]

theorem demonstratePolymorphism.loop_spec {F : Type} [Field F] (L : DoubleLib F) :
    ∀ (shapes : List Nat) (objs : List (AnyShape F)) (w : World F),
      List.Forall₂ (fun p S => w.heap[p]? = some S) shapes objs → shapes.Nodup →
      ∃ w2, demonstratePolymorphism.loop L w shapes = some w2
        ∧ w2.heap.length = w.heap.length
        ∧ List.Forall₂ (fun p S => w2.heap[p]?
            = some (S.withShape { S.toShape with x := S.getX + 10, y := S.getY + 10 }))
            shapes objs
        ∧ (∀ q, q ∉ shapes → w2.heap[q]? = w.heap[q]?)
        ∧ w2.out = w.out ++ objs.flatMap fun S =>
            "" :: (Shape.displayInfo L S ++ S.draw L
              ++ (S.move L (S.getX + 10) (S.getY + 10)).2) := by
  intro shapes
  induction shapes with
  | nil =>
    intro objs w h _
    cases h
    exact ⟨w, rfl, rfl, .nil, fun _ _ => rfl, by simp⟩
  | cons p rest ih =>
    intro objs w h hnd
    cases h with
    | @cons _ S _ objs1 hp hrest =>
      have hpr : p ∉ rest := (List.nodup_cons.1 hnd).1
      have hlt : p < w.heap.length := by
        by_contra hge
        rw [List.getElem?_eq_none (Nat.le_of_not_lt hge)] at hp
        cases hp
      have hrest1 : List.Forall₂
          (fun q T => (w.heap.set p
            (S.withShape { S.toShape with x := S.getX + 10, y := S.getY + 10 }))[q]? = some T)
          rest objs1 := by
        refine forall₂_of_mem hrest fun q hq T hT => ?_
        have hne : p ≠ q := fun e => hpr (e ▸ hq)
        rw [List.getElem?_set_ne hne]
        exact hT
      obtain ⟨w2, hrun, hlen, hsh, hoth, hout⟩ := ih objs1
        ⟨w.heap.set p (S.withShape { S.toShape with x := S.getX + 10, y := S.getY + 10 }),
          w.out ++ ("" :: (Shape.displayInfo L S ++ S.draw L
            ++ (S.move L (S.getX + 10) (S.getY + 10)).2))⟩
        hrest1 (List.nodup_cons.1 hnd).2
      refine ⟨w2, ?_, ?_, ?_, ?_, ?_⟩
      · simp only [demonstratePolymorphism.loop, demonstratePolymorphism.body_eq L w p S hp,
          Option.some_bind]
        exact hrun
      · simpa using hlen
      · refine .cons ?_ hsh
        rw [hoth p hpr]
        exact List.getElem?_set_self hlt
      · intro q hq
        have hne : p ≠ q := fun e => hq (e ▸ List.mem_cons_self _ _)
        have hqr : q ∉ rest := fun hm => hq (List.mem_cons_of_mem _ hm)
        rw [hoth q hqr]
        exact List.getElem?_set_ne hne
      · rw [hout]
        simp [List.flatMap_cons, List.append_assoc]


theorem calculateTotalArea.loop_eq {F : Type} [Field F] (w : World F) (shapes : List Nat) :
    ∀ (objs : List (AnyShape F)) (acc : F),
      List.Forall₂ (fun p s => w.heap[p]? = some s) shapes objs →
      calculateTotalArea.loop w acc shapes
        = some (acc + (objs.map AnyShape.getArea).sum, w) := by
  induction shapes with
  | nil =>
    intro objs acc h
    cases h
    simp [calculateTotalArea.loop]
  | cons p rest ih =>
    intro objs acc h
    cases h with
    | cons hp hrest =>
      simp only [calculateTotalArea.loop, World.getArea, hp, Option.map_some', Option.some_bind,
        List.map_cons, List.sum_cons]
      rw [ih _ _ hrest, add_assoc]

theorem main.sections1to3_heap {F : Type} [LinearOrderedField F] (L : DoubleLib F) :
    (main.sections1to3 L).map World.heap
      = some [.circle { name := "MyCircle", x := 10, y := 10, radius := 5.0 },
          .rectangle { name := "MyRectangle", x := 20, y := 20, width := 4.0, height := 6.0 },
          .triangle { name := "MyTriangle", x := 30, y := 30, base := 3.0, height := 4.0 }] := by
  simp [main.sections1to3, main.circle, main.rectangle, main.triangle, demonstratePolymorphism,
    demonstratePolymorphism.loop, demonstratePolymorphism.body, World.displayInfo, World.draw,
    World.getX, World.getY, World.move, World.construct, World.println, Circle.ctor,
    Rectangle.ctor, Triangle.ctor, Shape.ctor, AnyShape.move, Circle.move, Rectangle.move,
    Triangle.move, Shape.move, AnyShape.getX, AnyShape.getY, AnyShape.toShape, Shape.getX,
    Shape.getY]
  norm_num

theorem main.section4_heap {F : Type} [LinearOrderedField F] (L : DoubleLib F)
    (a b c : AnyShape F) (out : List String) :
    (main.section4 L ⟨[a, b, c], out⟩).map (fun w => w.heap.take 3) = some [a, b, c] := by
  simp [main.section4, main.section4.loop, World.displayInfo, World.draw, World.construct,
    World.println]

theorem main.section5_eq {F : Type} [Field F] (L : DoubleLib F) (w : World F)
    (S1 S2 : AnyShape F) (h1 : w.heap[0]? = some S1) (h2 : w.heap[1]? = some S2) :
    main.section5 L w = some ⟨w.heap, w.out ++
      (["5. Polymorphism with references:", "  Circle via reference:"]
        ++ Shape.displayInfo L S1 ++ S1.draw L ++ ["  Rectangle via reference:"]
        ++ Shape.displayInfo L S2 ++ S2.draw L ++ [""])⟩ := by
  simp [main.section5, main.circle, main.rectangle, World.displayInfo, World.draw,
    World.println, h1, h2]

/-! ### The claims -/

/-- C1 (as stated, refuted): for the circle of `main` (radius 5) over the reals, the area
returned by `getArea` is not `π·5²` and the perimeter returned by `getPerimeter` is not
`2·π·5`: the code multiplies by the decimal constant 3.14159. -/
theorem circle_pi_counterexample :
    Circle.getArea ({ name := "MyCircle", x := 0, y := 0, radius := 5 } : Circle ℝ)
        ≠ Real.pi * 5 ^ 2
      ∧ Circle.getPerimeter ({ name := "MyCircle", x := 0, y := 0, radius := 5 } : Circle ℝ)
        ≠ 2 * Real.pi * 5 := by
  have hpi := Real.pi_gt_d6
  constructor
  · intro h
    simp only [Circle.getArea] at h
    nlinarith
  · intro h
    simp only [Circle.getPerimeter] at h
    nlinarith

/-- C1 (amended): for every circle with radius `r`, `getArea` returns `3.14159·r²` and
`getPerimeter` returns `2·3.14159·r`, with the decimal constant 3.14159 of the code in the
place of π; the area is below `π·r²` by at most `0.000003·r²` and the perimeter differs from
`2·π·r` by at most `0.000006·|r|`. -/
theorem circle_area_perimeter_decimal (c : Circle ℝ) :
    c.getArea = 3.14159 * c.radius ^ 2
      ∧ c.getPerimeter = 2 * 3.14159 * c.radius
      ∧ c.getArea ≤ Real.pi * c.radius ^ 2
      ∧ Real.pi * c.radius ^ 2 - c.getArea ≤ 0.000003 * c.radius ^ 2
      ∧ |2 * Real.pi * c.radius - c.getPerimeter| ≤ 0.000006 * |c.radius| := by
  have hlo := Real.pi_gt_d6
  have hhi := Real.pi_lt_d6
  have hsq : 0 ≤ c.radius ^ 2 := sq_nonneg _
  have habs : 0 ≤ |c.radius| := abs_nonneg _
  refine ⟨?_, rfl, ?_, ?_, ?_⟩
  · simp only [Circle.getArea]; ring
  · simp only [Circle.getArea]; nlinarith
  · simp only [Circle.getArea]; nlinarith
  · have h : 2 * Real.pi * c.radius - c.getPerimeter = (2 * (Real.pi - 3.14159)) * c.radius := by
      simp only [Circle.getPerimeter]; ring
    rw [h, abs_mul, abs_of_pos (by linarith)]
    nlinarith

/-- C2: for every rectangle, `getArea` returns `width·height` and `getPerimeter` returns
`2·(width + height)`, directly and through the abstract type; a 4.0 by 6.0 rectangle has
area 24.0 and perimeter 20.0. -/
theorem rectangle_area_perimeter {F : Type} [LinearOrderedField F] (L : DoubleLib F)
    (r : Rectangle F) (n : String) (px py : F) :
    r.getArea = r.width * r.height
      ∧ r.getPerimeter = 2 * (r.width + r.height)
      ∧ (AnyShape.rectangle r).getArea = r.width * r.height
      ∧ (AnyShape.rectangle r).getPerimeter L = 2 * (r.width + r.height)
      ∧ Rectangle.getArea ({ name := n, x := px, y := py, width := 4.0, height := 6.0 }
          : Rectangle F) = 24.0
      ∧ Rectangle.getPerimeter ({ name := n, x := px, y := py, width := 4.0, height := 6.0 }
          : Rectangle F) = 20.0 := by
  refine ⟨rfl, rfl, rfl, rfl, ?_, ?_⟩
  · simp only [Rectangle.getArea]; norm_num
  · simp only [Rectangle.getPerimeter]; norm_num

/-- C3: over the reals with the real square root, for every triangle `getArea` returns
`0.5·base·height` and `getPerimeter` returns `base + height + sqrt(base² + height²)`, where
the last term is the non-negative number whose square is `base² + height²` (the hypotenuse
over the legs `base` and `height`); with base 3.0 and height 4.0 the area is 6.0 and the
perimeter is 3 + 4 + 5 = 12.0. -/
theorem triangle_area_perimeter (fmt : ℝ → String) (t : Triangle ℝ) (n : String)
    (px py : ℝ) :
    t.getArea = 0.5 * t.base * t.height
      ∧ t.getPerimeter ⟨Real.sqrt, fmt⟩
          = t.base + t.height + Real.sqrt (t.base ^ 2 + t.height ^ 2)
      ∧ 0 ≤ Real.sqrt (t.base ^ 2 + t.height ^ 2)
      ∧ Real.sqrt (t.base ^ 2 + t.height ^ 2) ^ 2 = t.base ^ 2 + t.height ^ 2
      ∧ (AnyShape.triangle t).getPerimeter ⟨Real.sqrt, fmt⟩
          = t.base + t.height + Real.sqrt (t.base ^ 2 + t.height ^ 2)
      ∧ Triangle.getArea ({ name := n, x := px, y := py, base := 3.0, height := 4.0 }
          : Triangle ℝ) = 6.0
      ∧ Triangle.getPerimeter ⟨Real.sqrt, fmt⟩
          ({ name := n, x := px, y := py, base := 3.0, height := 4.0 } : Triangle ℝ)
          = 3 + 4 + 5
      ∧ (3 + 4 + 5 : ℝ) = 12.0 := by
  have hper : t.getPerimeter ⟨Real.sqrt, fmt⟩
      = t.base + t.height + Real.sqrt (t.base ^ 2 + t.height ^ 2) := by
    simp only [Triangle.getPerimeter, pow_two]
  have h345 : Real.sqrt ((3.0 : ℝ) * 3.0 + 4.0 * 4.0) = 5 := by
    rw [show ((3.0 : ℝ) * 3.0 + 4.0 * 4.0) = 5 ^ 2 by norm_num]
    exact Real.sqrt_sq (by norm_num)
  refine ⟨rfl, hper, Real.sqrt_nonneg _, Real.sq_sqrt (by positivity), hper, ?_, ?_, ?_⟩
  · simp only [Triangle.getArea]; norm_num
  · simp only [Triangle.getPerimeter, h345]; norm_num
  · norm_num

/-- C4: with exact decimal arithmetic, the circle of `main` (radius 5.0) has
`getArea = 78.53975` and `getPerimeter = 31.4159`. -/
theorem circle_radius5_values {F : Type} [LinearOrderedField F] (n : String) (px py : F) :
    Circle.getArea ({ name := n, x := px, y := py, radius := 5.0 } : Circle F) = 78.53975
      ∧ Circle.getPerimeter ({ name := n, x := px, y := py, radius := 5.0 } : Circle F)
          = 31.4159
      ∧ (mainObjects : List (AnyShape F)).head?
          = some (.circle { name := "MyCircle", x := 0, y := 0, radius := 5.0 }) := by
  refine ⟨?_, ?_, rfl⟩
  · simp only [Circle.getArea]; norm_num
  · simp only [Circle.getPerimeter]; norm_num

/-- C5: when the pointers of `shapes` address the objects `objs` (in order),
`calculateTotalArea` returns the sum of `getArea` over `objs` and leaves the state (every
object and the console) as it was; for the empty vector it returns 0.0; for the vector of
`main` it returns 78.53975 + 24 + 6 = 108.53975, the sum of the three single areas. -/
theorem calculateTotalArea_sum {F : Type} [LinearOrderedField F] (w : World F)
    (shapes : List Nat) (objs : List (AnyShape F)) (out : List String)
    (hptr : List.Forall₂ (fun p s => w.heap[p]? = some s) shapes objs) :
    calculateTotalArea w shapes = some ((objs.map AnyShape.getArea).sum, w)
      ∧ calculateTotalArea w [] = some (0.0, w)
      ∧ calculateTotalArea ⟨mainObjects, out⟩ mainShapes
          = some ((78.53975 + 24 + 6 : F), ⟨mainObjects, out⟩)
      ∧ (mainObjects.map AnyShape.getArea : List F) = [78.53975, 24, 6]
      ∧ (78.53975 + 24 + 6 : F) = 108.53975 := by
  have hmain : (mainObjects.map AnyShape.getArea : List F) = [78.53975, 24, 6] := by
    simp only [mainObjects, List.map_cons, List.map_nil, AnyShape.getArea, Circle.getArea,
      Rectangle.getArea, Triangle.getArea]
    norm_num
  refine ⟨?_, ?_, ?_, hmain, by norm_num⟩
  · rw [calculateTotalArea, calculateTotalArea.loop_eq w shapes objs _ hptr]
    norm_num
  · simp [calculateTotalArea, calculateTotalArea.loop]
  · have hp : List.Forall₂ (fun p s => (⟨mainObjects, out⟩ : World F).heap[p]? = some s)
        mainShapes mainObjects :=
      .cons rfl (.cons rfl (.cons rfl .nil))
    rw [calculateTotalArea, calculateTotalArea.loop_eq _ _ _ _ hp, hmain]
    norm_num

/-- Witness of C5 at the state of `main`: the three pointers address the three objects. -/
theorem calculateTotalArea_sum_witness :
    List.Forall₂ (fun p s => (⟨mainObjects, []⟩ : World ℚ).heap[p]? = some s)
        mainShapes mainObjects
      ∧ calculateTotalArea (⟨mainObjects, []⟩ : World ℚ) mainShapes
          = some ((mainObjects.map AnyShape.getArea).sum, ⟨mainObjects, []⟩) :=
  ⟨.cons rfl (.cons rfl (.cons rfl .nil)),
   (calculateTotalArea_sum ⟨mainObjects, []⟩ mainShapes mainObjects []
    (.cons rfl (.cons rfl (.cons rfl .nil)))).1⟩

/-- C6: for a shape of any variant at `(x, y)`, after `move(x + 10, y + 10)` called through
the abstract type `getX` is `x + 10`, `getY` is `y + 10`, and `getArea` and `getPerimeter`
are what they were before the call. -/
theorem move_shifts_position_keeps_measures {F : Type} [Field F] (L : DoubleLib F)
    (S : AnyShape F) :
    (S.move L (S.getX + 10) (S.getY + 10)).1.getX = S.getX + 10
      ∧ (S.move L (S.getX + 10) (S.getY + 10)).1.getY = S.getY + 10
      ∧ (S.move L (S.getX + 10) (S.getY + 10)).1.getArea = S.getArea
      ∧ (S.move L (S.getX + 10) (S.getY + 10)).1.getPerimeter L = S.getPerimeter L := by
  cases S <;> exact ⟨rfl, rfl, rfl, rfl⟩

/-- C7: a call of `getArea`, `getPerimeter`, `draw` or `move` through the abstract type runs
the implementation of the object's own class (for `move`: `Circle::move` for a circle, the
inherited `Shape::move` for a rectangle and a triangle) with the same result, output and
successor object; a call through a pointer `p` to an object `S` gives the result of `S` and
stores the successor of `S` at `p`; `displayInfo` prints the area and perimeter of the
object's own class. -/
theorem dispatch_through_base {F : Type} [Field F] (L : DoubleLib F) (c : Circle F)
    (r : Rectangle F) (t : Triangle F) (newX newY : F) (w : World F) (p : Nat)
    (S : AnyShape F) (hp : w.heap[p]? = some S) :
    ((AnyShape.circle c).getArea = c.getArea
        ∧ (AnyShape.rectangle r).getArea = r.getArea
        ∧ (AnyShape.triangle t).getArea = t.getArea)
      ∧ ((AnyShape.circle c).getPerimeter L = c.getPerimeter
        ∧ (AnyShape.rectangle r).getPerimeter L = r.getPerimeter
        ∧ (AnyShape.triangle t).getPerimeter L = t.getPerimeter L)
      ∧ ((AnyShape.circle c).draw L = c.draw L
        ∧ (AnyShape.rectangle r).draw L = r.draw L
        ∧ (AnyShape.triangle t).draw L = t.draw L)
      ∧ ((AnyShape.circle c).move L newX newY
            = (.circle (c.move L newX newY).1, (c.move L newX newY).2)
        ∧ (AnyShape.rectangle r).move L newX newY
            = (.rectangle { r with toShape := (Shape.move L r.toShape newX newY).1 },
                (Shape.move L r.toShape newX newY).2)
        ∧ (AnyShape.triangle t).move L newX newY
            = (.triangle { t with toShape := (Shape.move L t.toShape newX newY).1 },
                (Shape.move L t.toShape newX newY).2))
      ∧ (w.getArea p = some S.getArea
        ∧ w.draw L p = some ⟨w.heap, w.out ++ S.draw L⟩
        ∧ w.move L p newX newY
            = some ⟨w.heap.set p (S.move L newX newY).1, w.out ++ (S.move L newX newY).2⟩
        ∧ w.displayInfo L p = some ⟨w.heap, w.out ++ Shape.displayInfo L S⟩)
      ∧ ((Shape.displayInfo L (.circle c)).drop 1
            = ["    Area: " ++ L.fmt c.getArea, "    Perimeter: " ++ L.fmt c.getPerimeter]
        ∧ (Shape.displayInfo L (.rectangle r)).drop 1
            = ["    Area: " ++ L.fmt r.getArea, "    Perimeter: " ++ L.fmt r.getPerimeter]
        ∧ (Shape.displayInfo L (.triangle t)).drop 1
            = ["    Area: " ++ L.fmt t.getArea,
               "    Perimeter: " ++ L.fmt (t.getPerimeter L)]) := by
  refine ⟨⟨rfl, rfl, rfl⟩, ⟨rfl, rfl, rfl⟩, ⟨rfl, rfl, rfl⟩, ⟨rfl, rfl, rfl⟩, ⟨?_, ?_, ?_, ?_⟩,
    ⟨rfl, rfl, rfl⟩⟩
  · simp [World.getArea, hp]
  · simp [World.draw, hp]
  · simp [World.move, hp]
  · simp [World.displayInfo, hp]

/-- Witness of C7: the pointer 1 of `main` addresses `rectangle`. -/
theorem dispatch_through_base_witness :
    (⟨mainObjects, []⟩ : World ℚ).heap[1]?
        = some (.rectangle
            { name := "MyRectangle", x := 10, y := 10, width := 4.0, height := 6.0 })
      ∧ (⟨mainObjects, []⟩ : World ℚ).getArea 1
        = some (AnyShape.getArea (F := ℚ) (.rectangle
            { name := "MyRectangle", x := 10, y := 10, width := 4.0, height := 6.0 })) :=
  ⟨rfl,
   (dispatch_through_base (⟨fun q => q, fun _ => ""⟩ : DoubleLib ℚ)
      { name := "c", x := 0, y := 0, radius := 1 }
      { name := "r", x := 0, y := 0, width := 1, height := 1 }
      { name := "t", x := 0, y := 0, base := 1, height := 1 } 0 0
      ⟨mainObjects, []⟩ 1 _ rfl).2.2.2.2.1.1⟩

/-- C8 (as stated, refuted): when the vector lists the circle of `main` twice, the loop moves
it twice: it starts at (0, 0) and ends at (20, 20), not at (10, 10). -/
theorem demonstratePolymorphism_repeated_counterexample :
    (mainObjects.map fun S => (S.getX, S.getY) : List (ℚ × ℚ)) = [(0, 0), (10, 10), (20, 20)]
      ∧ (demonstratePolymorphism ⟨fun q => q, fun _ => ""⟩ (⟨mainObjects, []⟩ : World ℚ)
            [0, 0]).map (fun w => w.heap.map fun S => (S.getX, S.getY))
          = some [(20, 20), (10, 10), (20, 20)]
      ∧ ((20 : ℚ), (20 : ℚ)) ≠ (0 + 10, 0 + 10) := by
  refine ⟨rfl, ?_, by norm_num⟩
  simp [demonstratePolymorphism, demonstratePolymorphism.loop, demonstratePolymorphism.body,
    World.println, World.displayInfo, World.draw, World.getX, World.getY, World.move,
    mainObjects, AnyShape.move, Circle.move, Shape.move, AnyShape.getX, AnyShape.getY,
    AnyShape.toShape, Shape.getX, Shape.getY]
  norm_num

/-- C8 (amended): when the pointers of `shapes` are pairwise distinct and address the objects
`objs` (in order), `demonstratePolymorphism` returns; the console gets the header line and
then, for each object in vector order, an empty line, its `displayInfo` lines (showing the
position before the shift), its `draw` line and its `move` lines; each listed object ends
with its position shifted by exactly (+10, +10) and with name, dynamic type and dimensions
(hence `draw`, area and perimeter) unchanged; no object is added or removed and objects not
listed are untouched. The per-object step is the same expression for all variants. -/
theorem demonstratePolymorphism_distinct {F : Type} [Field F] (L : DoubleLib F) (w : World F)
    (shapes : List Nat) (objs : List (AnyShape F))
    (hptr : List.Forall₂ (fun p S => w.heap[p]? = some S) shapes objs)
    (hnd : shapes.Nodup) :
    ∃ w2, demonstratePolymorphism L w shapes = some w2
      ∧ w2.heap.length = w.heap.length
      ∧ List.Forall₂ (fun p S => ∃ S2, w2.heap[p]? = some S2
          ∧ S2.getX = S.getX + 10 ∧ S2.getY = S.getY + 10 ∧ S2.getName = S.getName
          ∧ S2 = S.withShape { S.toShape with x := S.getX + 10, y := S.getY + 10 }
          ∧ S2.draw L = S.draw L ∧ S2.getArea = S.getArea
          ∧ S2.getPerimeter L = S.getPerimeter L) shapes objs
      ∧ (∀ q, q ∉ shapes → w2.heap[q]? = w.heap[q]?)
      ∧ w2.out = w.out ++ "  === Polymorphism Demonstration ===" :: objs.flatMap fun S =>
          "" :: (Shape.displayInfo L S ++ S.draw L
            ++ (S.move L (S.getX + 10) (S.getY + 10)).2) := by
  obtain ⟨w2, hrun, hlen, hsh, hoth, hout⟩ :=
    demonstratePolymorphism.loop_spec L shapes objs
      (w.println "  === Polymorphism Demonstration ===") hptr hnd
  refine ⟨w2, hrun, hlen, ?_, hoth, ?_⟩
  · refine hsh.imp fun p S h => ⟨_, h, ?_⟩
    cases S <;> exact ⟨rfl, rfl, rfl, rfl, rfl, rfl, rfl⟩
  · rw [hout]
    simp [World.println]

/-- Witness of C8 (amended) at the state and vector of `main`. -/
theorem demonstratePolymorphism_distinct_witness :
    List.Forall₂ (fun p S => (⟨mainObjects, []⟩ : World ℚ).heap[p]? = some S)
        mainShapes mainObjects
      ∧ mainShapes.Nodup
      ∧ ∃ w2, demonstratePolymorphism ⟨fun q => q, fun _ => ""⟩
            (⟨mainObjects, []⟩ : World ℚ) mainShapes = some w2
          ∧ w2.heap.length = 3 :=
  ⟨.cons rfl (.cons rfl (.cons rfl .nil)), by decide,
   (demonstratePolymorphism_distinct ⟨fun q => q, fun _ => ""⟩ ⟨mainObjects, []⟩ mainShapes
      mainObjects (.cons rfl (.cons rfl (.cons rfl .nil))) (by decide)).imp
      fun _ h => ⟨h.1, h.2.1⟩⟩

/-- C9: for every circle `c` and target `(newX, newY)`, `Circle::move` leaves `c` in the
state that `Shape::move` gives (position `(newX, newY)`, name and radius as before) and
prints the line of `Shape::move`, which is `<name> moved to (<newX>, <newY>)` after the
two-blank indent, followed by exactly one more line, `Circle-specific move completed` after
the same indent; a rectangle and a triangle run the inherited `Shape::move` and print the
base line only. -/
theorem circle_move_base_first {F : Type} [Field F] (L : DoubleLib F) (c : Circle F)
    (r : Rectangle F) (t : Triangle F) (newX newY : F) :
    (c.move L newX newY).1 = { c with toShape := (Shape.move L c.toShape newX newY).1 }
      ∧ (c.move L newX newY).1 = { c with x := newX, y := newY }
      ∧ (c.move L newX newY).2
          = (Shape.move L c.toShape newX newY).2 ++ ["  " ++ "Circle-specific move completed"]
      ∧ (Shape.move L c.toShape newX newY).2
          = ["  " ++ (c.name ++ " moved to (" ++ L.fmt newX ++ ", " ++ L.fmt newY ++ ")")]
      ∧ (c.move L newX newY).2.length = 2
      ∧ ((AnyShape.rectangle r).move L newX newY).2
          = ["  " ++ (r.name ++ " moved to (" ++ L.fmt newX ++ ", " ++ L.fmt newY ++ ")")]
      ∧ ((AnyShape.triangle t).move L newX newY).2
          = ["  " ++ (t.name ++ " moved to (" ++ L.fmt newX ++ ", " ++ L.fmt newY ++ ")")]
      ∧ ((AnyShape.circle c).move L newX newY).2 = (c.move L newX newY).2 := by
  refine ⟨rfl, rfl, rfl, ?_, rfl, ?_, ?_, rfl⟩
  · simp [Shape.move, String.append_assoc]
  · simp [AnyShape.move, Rectangle.move, Shape.move, String.append_assoc]
  · simp [AnyShape.move, Triangle.move, Shape.move, String.append_assoc]

/-- C10: for a shape `S` of any variant, `displayInfo` prints exactly three lines, in this
order: `  Shape: <name> at (<x>, <y>)`, `    Area: <getArea()>`, `    Perimeter:
<getPerimeter()>`, with the area and perimeter of the class of `S`; the lines are given by
name, position, area and perimeter alone, and a call through a pointer to `S` adds the three
lines to the console and leaves every object as it was. -/
theorem displayInfo_three_lines {F : Type} [Field F] (L : DoubleLib F) (S : AnyShape F)
    (c : Circle F) (r : Rectangle F) (t : Triangle F) (w : World F) (p : Nat)
    (hp : w.heap[p]? = some S) :
    Shape.displayInfo L S
        = ["  Shape: " ++ S.getName ++ " at (" ++ L.fmt S.getX ++ ", " ++ L.fmt S.getY ++ ")",
           "    Area: " ++ L.fmt S.getArea,
           "    Perimeter: " ++ L.fmt (S.getPerimeter L)]
      ∧ (Shape.displayInfo L S).length = 3
      ∧ (∀ S2 : AnyShape F, S2.getName = S.getName → S2.getX = S.getX → S2.getY = S.getY →
          S2.getArea = S.getArea → S2.getPerimeter L = S.getPerimeter L →
          Shape.displayInfo L S2 = Shape.displayInfo L S)
      ∧ (Shape.displayInfo L (.circle c)).drop 1
          = ["    Area: " ++ L.fmt (3.14159 * c.radius * c.radius),
             "    Perimeter: " ++ L.fmt (2 * 3.14159 * c.radius)]
      ∧ (Shape.displayInfo L (.rectangle r)).drop 1
          = ["    Area: " ++ L.fmt (r.width * r.height),
             "    Perimeter: " ++ L.fmt (2 * (r.width + r.height))]
      ∧ (Shape.displayInfo L (.triangle t)).drop 1
          = ["    Area: " ++ L.fmt (0.5 * t.base * t.height),
             "    Perimeter: " ++ L.fmt
                (t.base + t.height + L.sqrt (t.base * t.base + t.height * t.height))]
      ∧ w.displayInfo L p
          = some { heap := w.heap, out := w.out ++ Shape.displayInfo L S }
      ∧ (∀ w2, w.displayInfo L p = some w2 → w2.heap = w.heap) := by
  have hcall : w.displayInfo L p
      = some { heap := w.heap, out := w.out ++ Shape.displayInfo L S } := by
    simp [World.displayInfo, hp]
  refine ⟨rfl, rfl, ?_, rfl, rfl, rfl, hcall, ?_⟩
  · intro S2 hn hx hy ha hq
    have hn2 : S2.toShape.name = S.toShape.name := hn
    have hx2 : S2.toShape.x = S.toShape.x := hx
    have hy2 : S2.toShape.y = S.toShape.y := hy
    simp only [Shape.displayInfo, hn2, hx2, hy2, ha, hq]
  · intro w2 h2
    rw [hcall] at h2
    cases h2
    rfl

/-- Witness of C10: pointer 1 of `main` addresses `rectangle` (4.0 by 6.0); a 6.0 by 4.0
rectangle of the same name and position has the same area and perimeter and so the same
three lines. -/
theorem displayInfo_three_lines_witness :
    (⟨mainObjects, []⟩ : World ℚ).heap[1]?
        = some (.rectangle
            { name := "MyRectangle", x := 10, y := 10, width := 4.0, height := 6.0 })
      ∧ Shape.displayInfo (⟨fun q => q, fun q => toString q⟩ : DoubleLib ℚ)
          (.rectangle { name := "MyRectangle", x := 10, y := 10, width := 6.0, height := 4.0 })
        = Shape.displayInfo (⟨fun q => q, fun q => toString q⟩ : DoubleLib ℚ)
          (.rectangle
            { name := "MyRectangle", x := 10, y := 10, width := 4.0, height := 6.0 }) :=
  ⟨rfl,
   (displayInfo_three_lines (⟨fun q => q, fun q => toString q⟩ : DoubleLib ℚ)
      (.rectangle { name := "MyRectangle", x := 10, y := 10, width := 4.0, height := 6.0 })
      { name := "c", x := 0, y := 0, radius := 1 }
      { name := "r", x := 0, y := 0, width := 1, height := 1 }
      { name := "t", x := 0, y := 0, base := 1, height := 1 }
      ⟨mainObjects, []⟩ 1 rfl).2.2.1
      (.rectangle { name := "MyRectangle", x := 10, y := 10, width := 6.0, height := 4.0 })
      rfl rfl rfl
      (by simp only [AnyShape.getArea, Rectangle.getArea]; norm_num)
      (by simp only [AnyShape.getPerimeter, Rectangle.getPerimeter]; norm_num)⟩

/-- C11: `move` changes only `x` and `y`: the name and the dimensions of the class (radius;
width and height; base and height) are as before, for each class and through the abstract
type, and a `move` through a pointer leaves every other object as it was; `draw`,
`displayInfo` and `calculateTotalArea` return the objects unchanged. The getters `getArea`,
`getPerimeter`, `getName`, `getX`, `getY` are `const` functions returning a value: in the
model they yield no successor state at all. -/
theorem position_only_mutable_state {F : Type} [Field F] (L : DoubleLib F) (c : Circle F)
    (r : Rectangle F) (t : Triangle F) (newX newY : F) (w : World F) (p : Nat)
    (S : AnyShape F) (shapes : List Nat) (objs : List (AnyShape F))
    (hp : w.heap[p]? = some S)
    (hptr : List.Forall₂ (fun q T => w.heap[q]? = some T) shapes objs) :
    ((c.move L newX newY).1 = { c with x := newX, y := newY }
        ∧ (c.move L newX newY).1.name = c.name ∧ (c.move L newX newY).1.radius = c.radius)
      ∧ ((r.move L newX newY).1 = { r with x := newX, y := newY }
        ∧ (r.move L newX newY).1.name = r.name ∧ (r.move L newX newY).1.width = r.width
        ∧ (r.move L newX newY).1.height = r.height)
      ∧ ((t.move L newX newY).1 = { t with x := newX, y := newY }
        ∧ (t.move L newX newY).1.name = t.name ∧ (t.move L newX newY).1.base = t.base
        ∧ (t.move L newX newY).1.height = t.height)
      ∧ ((S.move L newX newY).1 = S.withShape { S.toShape with x := newX, y := newY }
        ∧ (S.move L newX newY).1.getName = S.getName
        ∧ (S.move L newX newY).1.draw L = S.draw L)
      ∧ (∃ w2, w.move L p newX newY = some w2
        ∧ w2.heap = w.heap.set p (S.withShape { S.toShape with x := newX, y := newY })
        ∧ ∀ q, q ≠ p → w2.heap[q]? = w.heap[q]?)
      ∧ (∃ w2, w.draw L p = some w2 ∧ w2.heap = w.heap)
      ∧ (∃ w2, w.displayInfo L p = some w2 ∧ w2.heap = w.heap)
      ∧ (∃ total, calculateTotalArea w shapes = some (total, w)) := by
  refine ⟨⟨rfl, rfl, rfl⟩, ⟨rfl, rfl, rfl, rfl⟩, ⟨rfl, rfl, rfl, rfl⟩,
    ⟨AnyShape.move_fst L S newX newY, ?_, ?_⟩, ?_, ?_, ?_, ?_⟩
  · cases S <;> rfl
  · cases S <;> rfl
  · refine ⟨⟨w.heap.set p (S.move L newX newY).1, w.out ++ (S.move L newX newY).2⟩,
      by simp only [World.move, hp, Option.map_some'], ?_, ?_⟩
    · simp [AnyShape.move_fst]
    · intro q hq
      exact List.getElem?_set_ne (Ne.symm hq)
  · exact ⟨⟨w.heap, w.out ++ S.draw L⟩, by simp only [World.draw, hp, Option.map_some'], rfl⟩
  · exact ⟨⟨w.heap, w.out ++ Shape.displayInfo L S⟩,
      by simp only [World.displayInfo, hp, Option.map_some'], rfl⟩
  · exact ⟨_, by rw [calculateTotalArea, calculateTotalArea.loop_eq w shapes objs _ hptr]⟩

/-- Witness of C11 at the state of `main` after section 1: pointer 0 addresses `circle`. -/
theorem position_only_mutable_state_witness :
    (⟨mainObjects, []⟩ : World ℚ).heap[0]?
        = some (.circle { name := "MyCircle", x := 0, y := 0, radius := 5.0 })
      ∧ List.Forall₂ (fun q T => (⟨mainObjects, []⟩ : World ℚ).heap[q]? = some T)
          mainShapes mainObjects
      ∧ ∃ w2, (⟨mainObjects, []⟩ : World ℚ).draw ⟨fun q => q, fun _ => ""⟩ 0 = some w2
          ∧ w2.heap = mainObjects :=
  ⟨rfl, .cons rfl (.cons rfl (.cons rfl .nil)),
   (position_only_mutable_state (⟨fun q => q, fun _ => ""⟩ : DoubleLib ℚ)
      { name := "c", x := 0, y := 0, radius := 1 }
      { name := "r", x := 0, y := 0, width := 1, height := 1 }
      { name := "t", x := 0, y := 0, base := 1, height := 1 } 7 9
      ⟨mainObjects, []⟩ 0 (.circle { name := "MyCircle", x := 0, y := 0, radius := 5.0 })
      mainShapes mainObjects rfl (.cons rfl (.cons rfl (.cons rfl .nil)))).2.2.2.2.2.1⟩

/-- C12: over the reals, for every radius, width, height and base (zero and negative ones
too) the three constructors return an object holding exactly the given values together with
their two lines of output, and `getArea` and `getPerimeter` return the values of the same
formulas; the radicand of the triangle's square root is never negative. For instance radius
-2 gives area 12.56636 and perimeter -12.56636, a -4 by 6 rectangle gives area -24 and
perimeter 4, and a triangle with base 0 and height 0 gives area 0 and perimeter 0. -/
theorem constructors_accept_every_dimension (fmt : ℝ → String) (n : String)
    (r w h b px py : ℝ) :
    ((Circle.ctor n r px py).1.getRadius = r
        ∧ (Circle.ctor n r px py).1.getArea = 3.14159 * r * r
        ∧ (Circle.ctor n r px py).1.getPerimeter = 2 * 3.14159 * r
        ∧ (Circle.ctor n r px py).2 = ["  Shape constructor: " ++ n,
            "  Circle constructor: " ++ n])
      ∧ ((Rectangle.ctor n w h px py).1.getWidth = w
        ∧ (Rectangle.ctor n w h px py).1.getHeight = h
        ∧ (Rectangle.ctor n w h px py).1.getArea = w * h
        ∧ (Rectangle.ctor n w h px py).1.getPerimeter = 2 * (w + h)
        ∧ (Rectangle.ctor n w h px py).2 = ["  Shape constructor: " ++ n,
            "  Rectangle constructor: " ++ n])
      ∧ ((Triangle.ctor n b h px py).1.getBase = b
        ∧ (Triangle.ctor n b h px py).1.getHeight = h
        ∧ (Triangle.ctor n b h px py).1.getArea = 0.5 * b * h
        ∧ (Triangle.ctor n b h px py).1.getPerimeter ⟨Real.sqrt, fmt⟩
            = b + h + Real.sqrt (b * b + h * h)
        ∧ 0 ≤ b * b + h * h
        ∧ (Triangle.ctor n b h px py).2 = ["  Shape constructor: " ++ n,
            "  Triangle constructor: " ++ n])
      ∧ ((Circle.ctor n (-2) px py).1.getArea = 12.56636
        ∧ (Circle.ctor n (-2) px py).1.getPerimeter = -12.56636
        ∧ (Rectangle.ctor n (-4) 6 px py).1.getArea = -24
        ∧ (Rectangle.ctor n (-4) 6 px py).1.getPerimeter = 4
        ∧ (Triangle.ctor n 0 0 px py).1.getArea = 0
        ∧ (Triangle.ctor n 0 0 px py).1.getPerimeter ⟨Real.sqrt, fmt⟩ = 0) := by
  refine ⟨⟨rfl, rfl, rfl, rfl⟩, ⟨rfl, rfl, rfl, rfl, rfl⟩,
    ⟨rfl, rfl, rfl, rfl, add_nonneg (mul_self_nonneg b) (mul_self_nonneg h), rfl⟩, ?_, ?_, ?_, ?_, ?_, ?_⟩
  · simp only [Circle.ctor, Circle.getArea]; norm_num
  · simp only [Circle.ctor, Circle.getPerimeter]; norm_num
  · simp only [Rectangle.ctor, Rectangle.getArea]; norm_num
  · simp only [Rectangle.ctor, Rectangle.getPerimeter]; norm_num
  · simp only [Triangle.ctor, Triangle.getArea]; norm_num
  · simp [Triangle.ctor, Triangle.getPerimeter]

/-- C13: in `main` the three locals are constructed at (0, 0), (10, 10) and (20, 20); after
`demonstratePolymorphism(shapes)` the objects themselves are at (10, 10), (20, 20) and
(30, 30); section 4 leaves them there, and the `displayInfo` calls of section 5 through
`shapeRef1` and `shapeRef2` print the circle at (10, 10) and the rectangle at (20, 20). -/
theorem main_move_seen_through_references {F : Type} [LinearOrderedField F]
    (L : DoubleLib F) :
    ∃ w3 w4 w5, main.sections1to3 L = some w3
      ∧ main.section4 L w3 = some w4
      ∧ main.section5 L w4 = some w5
      ∧ ((Circle.ctor "MyCircle" (5.0 : F) 0 0).1.x = 0
          ∧ (Circle.ctor "MyCircle" (5.0 : F) 0 0).1.y = 0
          ∧ (Rectangle.ctor "MyRectangle" (4.0 : F) 6.0 10 10).1.x = 10
          ∧ (Rectangle.ctor "MyRectangle" (4.0 : F) 6.0 10 10).1.y = 10
          ∧ (Triangle.ctor "MyTriangle" (3.0 : F) 4.0 20 20).1.x = 20
          ∧ (Triangle.ctor "MyTriangle" (3.0 : F) 4.0 20 20).1.y = 20)
      ∧ w3.heap = [.circle { name := "MyCircle", x := 10, y := 10, radius := 5.0 },
          .rectangle { name := "MyRectangle", x := 20, y := 20, width := 4.0, height := 6.0 },
          .triangle { name := "MyTriangle", x := 30, y := 30, base := 3.0, height := 4.0 }]
      ∧ w4.heap.take 3 = w3.heap
      ∧ w5.out = w4.out ++
          ["5. Polymorphism with references:",
           "  Circle via reference:",
           "  Shape: MyCircle at (" ++ L.fmt 10 ++ ", " ++ L.fmt 10 ++ ")",
           "    Area: " ++ L.fmt 78.53975,
           "    Perimeter: " ++ L.fmt 31.4159,
           "  Drawing a circle with radius " ++ L.fmt 5.0,
           "  Rectangle via reference:",
           "  Shape: MyRectangle at (" ++ L.fmt 20 ++ ", " ++ L.fmt 20 ++ ")",
           "    Area: " ++ L.fmt 24,
           "    Perimeter: " ++ L.fmt 20,
           "  Drawing a rectangle " ++ L.fmt 4.0 ++ "x" ++ L.fmt 6.0,
           ""] := by
  obtain ⟨w3, h3, hheap3⟩ := Option.map_eq_some'.1 (main.sections1to3_heap L)
  obtain ⟨heap3, out3⟩ := w3
  simp only at hheap3
  subst hheap3
  obtain ⟨w4, h4, hheap4⟩ := Option.map_eq_some'.1 (main.section4_heap L _ _ _ out3)
  have h0 : w4.heap[0]? = some (.circle { name := "MyCircle", x := 10, y := 10, radius := 5.0 }) := by
    have := congrArg (fun l => l[0]?) hheap4
    simpa using this
  have h1 : w4.heap[1]? = some (.rectangle
      { name := "MyRectangle", x := 20, y := 20, width := 4.0, height := 6.0 }) := by
    have := congrArg (fun l => l[1]?) hheap4
    simpa using this
  refine ⟨_, w4, _, h3, h4, main.section5_eq L w4 _ _ h0 h1, ⟨rfl, rfl, rfl, rfl, rfl, rfl⟩,
    rfl, hheap4, ?_⟩
  simp only [Shape.displayInfo, AnyShape.draw, Circle.draw, Rectangle.draw, AnyShape.getArea,
    AnyShape.getPerimeter, Circle.getArea, Circle.getPerimeter, Rectangle.getArea,
    Rectangle.getPerimeter, AnyShape.toShape, List.cons_append, List.nil_append,
    List.append_assoc]
  norm_num
  exact ⟨rfl, rfl⟩

end Polymorphism

namespace Binary64

/-! ### Rounding to binary64: order, fixed points, evaluation -/

theorem roundHalfEven_floor_le (q : ℚ) : ⌊q⌋ ≤ roundHalfEven q := by
  unfold roundHalfEven
  simp only []
  split_ifs <;> omega

theorem roundHalfEven_le_floor_succ (q : ℚ) : roundHalfEven q ≤ ⌊q⌋ + 1 := by
  unfold roundHalfEven
  simp only []
  split_ifs <;> omega

theorem roundHalfEven_intCast (n : ℤ) : roundHalfEven (n : ℚ) = n := by
  unfold roundHalfEven
  simp

theorem roundHalfEven_mono {q1 q2 : ℚ} (h : q1 ≤ q2) : roundHalfEven q1 ≤ roundHalfEven q2 := by
  have hf : ⌊q1⌋ ≤ ⌊q2⌋ := Int.floor_mono h
  rcases lt_or_eq_of_le hf with hlt | heq
  · have h1 := roundHalfEven_le_floor_succ q1
    have h2 := roundHalfEven_floor_le q2
    omega
  · unfold roundHalfEven
    simp only []
    rw [heq]
    split_ifs <;> first | omega | (exfalso; linarith)

theorem two_zpow_pos (u : ℤ) : (0 : ℚ) < 2 ^ u := zpow_pos (by norm_num) u

theorem roundNearestEven_le_grid (x : ℚ) (N : ℤ) (h : x ≤ N * 2 ^ ulpExponent x) :
    roundNearestEven x ≤ N * 2 ^ ulpExponent x := by
  unfold roundNearestEven
  have hp := two_zpow_pos (ulpExponent x)
  have h1 : x / 2 ^ ulpExponent x ≤ (N : ℚ) := (div_le_iff₀ hp).2 h
  have h2 := roundHalfEven_mono h1
  rw [roundHalfEven_intCast] at h2
  have h3 : ((roundHalfEven (x / 2 ^ ulpExponent x) : ℤ) : ℚ) ≤ (N : ℚ) := Int.cast_le.2 h2
  exact mul_le_mul_of_nonneg_right h3 hp.le

theorem grid_le_roundNearestEven (x : ℚ) (N : ℤ) (h : N * 2 ^ ulpExponent x ≤ x) :
    N * 2 ^ ulpExponent x ≤ roundNearestEven x := by
  unfold roundNearestEven
  have hp := two_zpow_pos (ulpExponent x)
  have h1 : (N : ℚ) ≤ x / 2 ^ ulpExponent x := (le_div_iff₀ hp).2 h
  have h2 := roundHalfEven_mono h1
  rw [roundHalfEven_intCast] at h2
  have h3 : (N : ℚ) ≤ ((roundHalfEven (x / 2 ^ ulpExponent x) : ℤ) : ℚ) := Int.cast_le.2 h2
  exact mul_le_mul_of_nonneg_right h3 hp.le

theorem roundNearestEven_of_grid (x : ℚ) (M : ℤ) (h : x = M * 2 ^ ulpExponent x) :
    roundNearestEven x = x := by
  have hp := two_zpow_pos (ulpExponent x)
  have h1 : x / 2 ^ ulpExponent x = (M : ℚ) := by
    rw [div_eq_iff hp.ne']
    exact h
  unfold roundNearestEven
  rw [h1, roundHalfEven_intCast]
  exact h.symm

theorem roundNearestEven_zero : roundNearestEven 0 = 0 := by
  apply roundNearestEven_of_grid 0 0
  simp

theorem roundNearestEven_nonneg {x : ℚ} (h : 0 ≤ x) : 0 ≤ roundNearestEven x := by
  have := grid_le_roundNearestEven x 0 (by simpa using h)
  simpa using this

theorem ulpExponent_ge (x : ℚ) : -1074 ≤ ulpExponent x := le_max_right _ _

theorem log_le_ulpExponent (x : ℚ) : Int.log 2 |x| - 52 ≤ ulpExponent x := le_max_left _ _

theorem roundNearestEven_mono {x y : ℚ} (hx : 0 ≤ x) (hxy : x ≤ y) :
    roundNearestEven x ≤ roundNearestEven y := by
  rcases eq_or_lt_of_le hx with h0 | hpos
  · rw [← h0, roundNearestEven_zero]
    exact roundNearestEven_nonneg (hx.trans hxy)
  have hy : 0 < y := lt_of_lt_of_le hpos hxy
  have hlog : Int.log 2 x ≤ Int.log 2 y := Int.log_mono_right hpos hxy
  have hux : ulpExponent x = max (Int.log 2 x - 52) (-1074) := by
    unfold ulpExponent
    rw [abs_of_pos hpos]
  have huy : ulpExponent y = max (Int.log 2 y - 52) (-1074) := by
    unfold ulpExponent
    rw [abs_of_pos hy]
  have hule : ulpExponent x ≤ ulpExponent y := by
    rw [hux, huy]
    exact max_le_max (by omega) le_rfl
  rcases eq_or_lt_of_le hule with hu | hu
  · unfold roundNearestEven
    rw [hu]
    have hp := two_zpow_pos (ulpExponent y)
    have h1 : x / 2 ^ ulpExponent y ≤ y / 2 ^ ulpExponent y :=
      div_le_div_of_nonneg_right hxy hp.le
    exact mul_le_mul_of_nonneg_right (Int.cast_le.2 (roundHalfEven_mono h1)) hp.le
  · -- the units differ: a power of two lies between `x` and `y`, and it is a binary64 value
    have hx1 := ulpExponent_ge x
    have hx2 : Int.log 2 x - 52 ≤ ulpExponent x := by
      rw [hux]
      exact le_max_left _ _
    have huy2 : ulpExponent y = Int.log 2 y - 52 := by
      rw [huy]
      apply max_eq_left
      rw [huy] at hu
      rcases le_max_iff.1 (le_of_lt hu) with h | h
      · omega
      · have := lt_max_iff.1 hu
        omega
    have hlt : Int.log 2 x < Int.log 2 y := by omega
    have hxlt : x < 2 ^ (Int.log 2 x + 1) := Int.lt_zpow_succ_log_self (by norm_num) x
    have hmid : (2 : ℚ) ^ (Int.log 2 x + 1) ≤ 2 ^ Int.log 2 y :=
      zpow_le_zpow_right₀ (by norm_num) (by omega)
    have hylow : (2 : ℚ) ^ Int.log 2 y ≤ y := Int.zpow_log_le_self (by norm_num) hy
    -- the power of two on the grid of `x`
    have hk : 0 ≤ Int.log 2 y - ulpExponent x := by omega
    have hgx : (((2 : ℤ) ^ (Int.log 2 y - ulpExponent x).toNat : ℤ) : ℚ) * 2 ^ ulpExponent x
        = 2 ^ Int.log 2 y := by
      have h2 : (((2 : ℤ) ^ (Int.log 2 y - ulpExponent x).toNat : ℤ) : ℚ)
          = (2 : ℚ) ^ (Int.log 2 y - ulpExponent x) := by
        rw [Int.cast_pow, ← zpow_natCast, Int.toNat_of_nonneg hk]
        norm_num
      rw [h2, ← zpow_add₀ (by norm_num : (2 : ℚ) ≠ 0)]
      congr 1
      omega
    have hgy : (((2 : ℤ) ^ 52 : ℤ) : ℚ) * 2 ^ ulpExponent y = 2 ^ Int.log 2 y := by
      have h2 : (((2 : ℤ) ^ 52 : ℤ) : ℚ) = (2 : ℚ) ^ (52 : ℤ) := by norm_num
      rw [h2, ← zpow_add₀ (by norm_num : (2 : ℚ) ≠ 0), huy2]
      congr 1
      omega
    have hA : roundNearestEven x ≤ 2 ^ Int.log 2 y := by
      have := roundNearestEven_le_grid x ((2 : ℤ) ^ (Int.log 2 y - ulpExponent x).toNat)
        (by rw [hgx]; linarith)
      rwa [hgx] at this
    have hB : (2 : ℚ) ^ Int.log 2 y ≤ roundNearestEven y := by
      have := grid_le_roundNearestEven y ((2 : ℤ) ^ 52) (by rw [hgy]; exact hylow)
      rwa [hgy] at this
    exact hA.trans hB

theorem roundHalfEven_of_near (q : ℚ) (n : ℤ) (h : |q - n| < 1 / 2) : roundHalfEven q = n := by
  rw [abs_lt] at h
  rcases le_or_lt (n : ℚ) q with hq | hq
  · have hf : ⌊q⌋ = n := Int.floor_eq_iff.2 ⟨hq, by linarith⟩
    unfold roundHalfEven
    simp only [hf]
    rw [if_pos (by linarith)]
  · have hf : ⌊q⌋ = n - 1 := Int.floor_eq_iff.2 ⟨by push_cast; linarith, by push_cast; linarith⟩
    unfold roundHalfEven
    simp only [hf]
    push_cast
    rw [if_neg (by linarith), if_pos (by linarith)]
    ring

theorem roundHalfEven_tie (q : ℚ) (n : ℤ) (h : |q - n| = 1 / 2) (he : n % 2 = 0) :
    roundHalfEven q = n := by
  rcases le_or_lt (n : ℚ) q with hq | hq
  · rw [abs_of_nonneg (by linarith)] at h
    have hf : ⌊q⌋ = n := Int.floor_eq_iff.2 ⟨hq, by linarith⟩
    unfold roundHalfEven
    simp only [hf]
    rw [if_neg (by linarith), if_neg (by linarith), if_pos he]
  · rw [abs_of_neg (by linarith)] at h
    have hf : ⌊q⌋ = n - 1 := Int.floor_eq_iff.2 ⟨by push_cast; linarith, by push_cast; linarith⟩
    unfold roundHalfEven
    simp only [hf]
    push_cast
    rw [if_neg (by linarith), if_neg (by linarith), if_neg (by omega)]
    ring

theorem ulpExponent_eq (x : ℚ) (e : ℤ) (hlo : 2 ^ e ≤ x) (hhi : x < 2 ^ (e + 1))
    (he : -1022 ≤ e) : ulpExponent x = e - 52 := by
  have hpos : 0 < x := lt_of_lt_of_le (two_zpow_pos e) hlo
  have h1 : e ≤ Int.log 2 x := (Int.zpow_le_iff_le_log (by norm_num) hpos).1 hlo
  have h2 : Int.log 2 x < e + 1 := (Int.lt_zpow_iff_log_lt (by norm_num) hpos).1 hhi
  unfold ulpExponent
  rw [abs_of_pos hpos]
  have : Int.log 2 x = e := by omega
  rw [this]
  exact max_eq_left (by omega)

theorem roundNearestEven_of_near (x : ℚ) (e n : ℤ) (hlo : 2 ^ e ≤ x) (hhi : x < 2 ^ (e + 1))
    (he : -1022 ≤ e) (hn : |x / 2 ^ (e - 52) - n| < 1 / 2) :
    roundNearestEven x = n * 2 ^ (e - 52) := by
  unfold roundNearestEven
  rw [ulpExponent_eq x e hlo hhi he, roundHalfEven_of_near _ n hn]

theorem roundNearestEven_tie (x : ℚ) (e n : ℤ) (hlo : 2 ^ e ≤ x) (hhi : x < 2 ^ (e + 1))
    (he : -1022 ≤ e) (hn : |x / 2 ^ (e - 52) - n| = 1 / 2) (hev : n % 2 = 0) :
    roundNearestEven x = n * 2 ^ (e - 52) := by
  unfold roundNearestEven
  rw [ulpExponent_eq x e hlo hhi he, roundHalfEven_tie _ n hn hev]

theorem roundNearestEven_natCast_mul_two_pow (m k : ℕ) (hm : m < 2 ^ 53) :
    roundNearestEven ((m : ℚ) * 2 ^ k) = m * 2 ^ k := by
  rcases Nat.eq_zero_or_pos m with h0 | hpos
  · subst h0
    simpa using roundNearestEven_zero
  have hx : (0 : ℚ) < (m : ℚ) * 2 ^ k := by positivity
  have hlt : (m : ℚ) * 2 ^ k < 2 ^ ((53 : ℤ) + k) := by
    rw [zpow_add₀ (by norm_num : (2 : ℚ) ≠ 0), zpow_natCast]
    have h1 : (m : ℚ) < 2 ^ (53 : ℤ) := by
      norm_num at hm ⊢
      exact_mod_cast hm
    exact mul_lt_mul_of_pos_right h1 (by positivity)
  have hlog : Int.log 2 ((m : ℚ) * 2 ^ k) < 53 + k :=
    (Int.lt_zpow_iff_log_lt (by norm_num) hx).1 hlt
  have hu : ulpExponent ((m : ℚ) * 2 ^ k) ≤ k := by
    unfold ulpExponent
    rw [abs_of_pos hx]
    exact max_le (by omega) (by omega)
  apply roundNearestEven_of_grid _ ((m : ℤ) * 2 ^ ((k : ℤ) - ulpExponent ((m : ℚ) * 2 ^ k)).toNat)
  have h2 : (((2 : ℤ) ^ ((k : ℤ) - ulpExponent ((m : ℚ) * 2 ^ k)).toNat : ℤ) : ℚ)
      = (2 : ℚ) ^ ((k : ℤ) - ulpExponent ((m : ℚ) * 2 ^ k)) := by
    rw [Int.cast_pow, ← zpow_natCast, Int.toNat_of_nonneg (by omega)]
    norm_num
  rw [Int.cast_mul, h2, mul_assoc, ← zpow_add₀ (by norm_num : (2 : ℚ) ≠ 0)]
  simp

theorem roundNearestEven_natCast (m : ℕ) (h : m < 2 ^ 53) :
    roundNearestEven (m : ℚ) = m := by
  simpa using roundNearestEven_natCast_mul_two_pow m 0 h

end Binary64

namespace Classes

/-! ### Lemmas on the mean, the slots and call sequences -/

theorem foldl_add_eq_sum {F : Type} [LinearOrderedField F] (l : List F) :
    l.foldl (fun sum grade => sum + grade) 0.0 = l.sum := by
  have h : ∀ (acc : F), l.foldl (fun sum grade => sum + grade) acc = acc + l.sum := by
    induction l with
    | nil => intro acc; simp
    | cons a t ih => intro acc; simp [ih, add_assoc]
  rw [h]
  norm_num

theorem Student.getAverageGrade_eq {F : Type} [LinearOrderedField F] (s : Student F)
    (h : s.grades ≠ []) : s.getAverageGrade = s.grades.sum / (s.grades.length : F) := by
  have he : s.grades.isEmpty = false := by
    cases hg : s.grades with
    | nil => exact absurd hg h
    | cons a t => rfl
  simp only [Student.getAverageGrade, he, foldl_add_eq_sum]
  simp

theorem State.mem_of_get {F : Type} (w : State F) (p : Nat) (s : Student F)
    (h : w.get p = some s) : w.objects[p]? = some (some s) := by
  unfold State.get at h
  cases ho : w.objects[p]? with
  | none => rw [ho] at h; cases h
  | some o =>
    rw [ho] at h
    cases o with
    | none => cases h
    | some t => simp at h; rw [h]

theorem Student.addGrade_range {F : Type} [LinearOrderedField F] (s : Student F) (g : F)
    (hs : ∀ x ∈ s.grades, 0 ≤ x ∧ x ≤ 100) :
    ∀ x ∈ (s.addGrade g).grades, 0 ≤ x ∧ x ≤ 100 := by
  intro x hx
  unfold Student.addGrade at hx
  split at hx
  · rename_i hr
    rcases List.mem_append.1 hx with h | h
    · exact hs x h
    · rw [List.mem_singleton] at h
      subst h
      norm_num at hr
      exact hr
  · exact hs x hx

theorem State.call_grades {F : Type} [LinearOrderedField F] (w w1 : State F) (c : Call F)
    (h : w.call c = some w1)
    (hinv : ∀ s, some s ∈ w.objects → ∀ x ∈ s.grades, 0 ≤ x ∧ x ≤ 100) :
    ∀ s, some s ∈ w1.objects → ∀ x ∈ s.grades, 0 ≤ x ∧ x ≤ 100 := by
  have hset : ∀ (p : Nat) (o t : Student F), w.get p = some o →
      (∀ x ∈ t.grades, 0 ≤ x ∧ x ≤ 100) →
      ∀ s, some s ∈ w.objects.set p (some t) → ∀ x ∈ s.grades, 0 ≤ x ∧ x ≤ 100 := by
    intro p o t _ ht s hs
    rcases List.mem_or_eq_of_mem_set hs with hm | he
    · exact hinv s hm
    · cases he
      exact ht
  have hget : ∀ (p : Nat) (o : Student F), w.get p = some o →
      ∀ x ∈ o.grades, 0 ≤ x ∧ x ≤ 100 := fun p o hg =>
    hinv o (List.getElem?_mem (State.mem_of_get w p o hg))
  cases c with
  | ctorDefault =>
    simp only [State.call, Option.some.injEq] at h
    subst h
    intro s hs
    simp only [Student.ctorDefault, List.mem_append, List.mem_singleton, Option.some.injEq] at hs
    rcases hs with hm | he
    · exact hinv s hm
    · subst he; simp
  | ctorParam n a =>
    simp only [State.call, Option.some.injEq] at h
    subst h
    intro s hs
    simp only [Student.ctorParam, List.mem_append, List.mem_singleton, Option.some.injEq] at hs
    rcases hs with hm | he
    · exact hinv s hm
    · subst he; simp
  | ctorCopy other =>
    simp only [State.call, Student.ctorCopy] at h
    cases hg : w.get other with
    | none => simp [hg] at h
    | some o =>
      simp only [hg, Option.map_some', Option.some.injEq] at h
      subst h
      intro s hs
      simp only [List.mem_append, List.mem_singleton, Option.some.injEq] at hs
      rcases hs with hm | he
      · exact hinv s hm
      · subst he
        exact hget other o hg
  | dtor p =>
    simp only [State.call, Student.dtor] at h
    cases hg : w.get p with
    | none => simp [hg] at h
    | some o =>
      simp only [hg, Option.map_some', Option.some.injEq] at h
      subst h
      intro s hs
      rcases List.mem_or_eq_of_mem_set hs with hm | he
      · exact hinv s hm
      · cases he
  | setName p n =>
    simp only [State.call, State.setName] at h
    cases hg : w.get p with
    | none => simp [hg] at h
    | some o =>
      simp only [hg, Option.map_some', Option.some.injEq] at h
      subst h
      exact hset p o _ hg (hget p o hg)
  | setAge p a =>
    simp only [State.call, State.setAge] at h
    cases hg : w.get p with
    | none => simp [hg] at h
    | some o =>
      simp only [hg, Option.map_some', Option.some.injEq] at h
      subst h
      exact hset p o _ hg (hget p o hg)
  | addGrade p g =>
    simp only [State.call, State.addGrade] at h
    cases hg : w.get p with
    | none => simp [hg] at h
    | some o =>
      simp only [hg, Option.map_some', Option.some.injEq] at h
      subst h
      exact hset p o _ hg (Student.addGrade_range o g (hget p o hg))

theorem State.calls_grades {F : Type} [LinearOrderedField F] (ops : List (Call F)) :
    ∀ (w w1 : State F), w.calls ops = some w1 →
      (∀ s, some s ∈ w.objects → ∀ x ∈ s.grades, 0 ≤ x ∧ x ≤ 100) →
      ∀ s, some s ∈ w1.objects → ∀ x ∈ s.grades, 0 ≤ x ∧ x ≤ 100 := by
  induction ops with
  | nil =>
    intro w w1 h hinv
    simp only [State.calls, Option.some.injEq] at h
    subst h
    exact hinv
  | cons c rest ih =>
    intro w w1 h hinv
    simp only [State.calls] at h
    cases hc : w.call c with
    | none => simp [hc] at h
    | some w2 =>
      simp only [hc, Option.some_bind] at h
      exact ih w2 w1 h (State.call_grades w w2 c hc hinv)

theorem main_final {F : Type} [LinearOrderedField F] (fmt : F → String) :
    (main fmt).map (fun r => (r.1, r.2.getTotalStudents, r.2.liveCount,
        r.2.out.reverse.take 3))
      = some (0, 9, 9, ["=== End of Classes Example ===", "", "   Final total students: 9"]) := by
  simp [main, main.section1, main.section2, main.section3, main.section4, main.section5,
    main.sections6to8, State.init, State.println,
    State.getTotalStudents, State.liveCount, State.get, State.setName, State.setAge,
    State.addGrade, State.displayInfo, State.printStudentDetails, Student.ctorDefault,
    Student.ctorParam, Student.ctorCopy, Student.dtor, StudentVector.push_back, copyAll,
    destroyAll, displayAll]
  rfl

/-! ### The claims on `Student` -/

/-- C16: `getAverageGrade` returns the sum of the grades divided by their count when the
grade list is not empty (the divisor is then not zero) and 0.0 when it is empty; grades 95.0
and 88.0 (as added to `student3` in `main`) give 91.5. -/
theorem getAverageGrade_is_mean {F : Type} [LinearOrderedField F] (s : Student F)
    (n : String) (a : Int) :
    (s.grades ≠ [] → s.getAverageGrade = s.grades.sum / (s.grades.length : F)
        ∧ (s.grades.length : F) ≠ 0)
      ∧ (s.grades = [] → s.getAverageGrade = 0.0)
      ∧ Student.getAverageGrade ({ name := n, age := a, grades := [95.0, 88.0] } : Student F)
          = 91.5
      ∧ ((({ name := n, age := a, grades := [] } : Student F).addGrade 95.0).addGrade
          88.0).getAverageGrade = 91.5 := by
  refine ⟨fun h => ⟨Student.getAverageGrade_eq s h, ?_⟩, ?_, ?_, ?_⟩
  · have : 0 < s.grades.length := List.length_pos.2 h
    exact_mod_cast this.ne'
  · intro h
    simp [Student.getAverageGrade, h]
  · rw [Student.getAverageGrade_eq _ (by simp)]
    norm_num
  · have h1 : (({ name := n, age := a, grades := [] } : Student F).addGrade 95.0).addGrade 88.0
        = { name := n, age := a, grades := [95.0, 88.0] } := by
      simp only [Student.addGrade]
      norm_num
    rw [h1, Student.getAverageGrade_eq _ (by simp)]
    norm_num

/-- Witness of C16 on the grades of `student2` in `main`. -/
theorem getAverageGrade_is_mean_witness :
    ([85.5, 92.0, 78.5] : List ℚ) ≠ []
      ∧ Student.getAverageGrade
          ({ name := "Alice", age := 20, grades := [85.5, 92.0, 78.5] } : Student ℚ)
        = ([85.5, 92.0, 78.5] : List ℚ).sum / (([85.5, 92.0, 78.5] : List ℚ).length : ℚ) :=
  ⟨by simp,
   ((getAverageGrade_is_mean
      ({ name := "Alice", age := 20, grades := [85.5, 92.0, 78.5] } : Student ℚ) "" 0).1
      (by simp)).1⟩

/-- C17: `addGrade(g)` appends `g` at the end of the grade list exactly when
0.0 ≤ g ≤ 100.0 (0.0 and 100.0 themselves are accepted); for every other `g` the student is
returned as it was. Name and age never change, and the grades stored before are a prefix of
the grades after. -/
theorem addGrade_iff_in_range {F : Type} [LinearOrderedField F] (s : Student F) (g : F) :
    ((0 ≤ g ∧ g ≤ 100) → (s.addGrade g).grades = s.grades ++ [g])
      ∧ (¬ (0 ≤ g ∧ g ≤ 100) → s.addGrade g = s)
      ∧ ((s.addGrade g).grades = s.grades ++ [g] ↔ (0 ≤ g ∧ g ≤ 100))
      ∧ (s.addGrade g).name = s.name
      ∧ (s.addGrade g).age = s.age
      ∧ s.grades <+: (s.addGrade g).grades
      ∧ (s.addGrade 0.0).grades = s.grades ++ [0.0]
      ∧ (s.addGrade 100.0).grades = s.grades ++ [100.0] := by
  have hin : (0 ≤ g ∧ g ≤ 100) → s.addGrade g = { s with grades := s.grades ++ [g] } := by
    intro h
    have h2 : g ≥ 0.0 ∧ g ≤ 100.0 := by norm_num; exact h
    simp only [Student.addGrade, if_pos h2]
  have hout : ¬ (0 ≤ g ∧ g ≤ 100) → s.addGrade g = s := by
    intro h
    have h2 : ¬ (g ≥ 0.0 ∧ g ≤ 100.0) := by norm_num; simpa using h
    simp only [Student.addGrade, if_neg h2]
  refine ⟨fun h => by rw [hin h], hout, ?_, ?_, ?_, ?_, ?_, ?_⟩
  · constructor
    · intro h
      by_contra hn
      rw [hout hn] at h
      have := congrArg List.length h
      simp at this
    · intro h
      rw [hin h]
  · by_cases h : 0 ≤ g ∧ g ≤ 100
    · rw [hin h]
    · rw [hout h]
  · by_cases h : 0 ≤ g ∧ g ≤ 100
    · rw [hin h]
    · rw [hout h]
  · by_cases h : 0 ≤ g ∧ g ≤ 100
    · rw [hin h]
      exact List.prefix_append _ _
    · rw [hout h]
  · simp only [Student.addGrade]
    norm_num
  · simp only [Student.addGrade]
    norm_num

/-- Witness of C17: 85.5 is in range and is appended; 100.5 and -1 are not and change
nothing. -/
theorem addGrade_iff_in_range_witness :
    ((0 : ℚ) ≤ 85.5 ∧ (85.5 : ℚ) ≤ 100)
      ∧ (Student.addGrade ({ name := "Alice", age := 20, grades := [92.0] } : Student ℚ)
          85.5).grades = [92.0, 85.5]
      ∧ ¬ ((0 : ℚ) ≤ 100.5 ∧ (100.5 : ℚ) ≤ 100)
      ∧ Student.addGrade ({ name := "Alice", age := 20, grades := [92.0] } : Student ℚ) 100.5
          = { name := "Alice", age := 20, grades := [92.0] }
      ∧ Student.addGrade ({ name := "Alice", age := 20, grades := [92.0] } : Student ℚ) (-1)
          = { name := "Alice", age := 20, grades := [92.0] } :=
  ⟨by norm_num,
   (addGrade_iff_in_range ({ name := "Alice", age := 20, grades := [92.0] } : Student ℚ)
      85.5).1 (by norm_num),
   by norm_num,
   (addGrade_iff_in_range ({ name := "Alice", age := 20, grades := [92.0] } : Student ℚ)
      100.5).2.1 (by norm_num),
   (addGrade_iff_in_range ({ name := "Alice", age := 20, grades := [92.0] } : Student ℚ)
      (-1)).2.1 (by norm_num)⟩

/-! ### The average in binary64 arithmetic -/

theorem foldl_binary64_bounds (l : List ℚ) (hl : ∀ g ∈ l, 0 ≤ g ∧ g ≤ 100) :
    ∀ (k : ℕ) (acc : ℚ), 0 ≤ acc → acc ≤ 100 * k → 100 * (k + l.length) < 2 ^ 53 →
      0 ≤ l.foldl (fun sum grade => Binary64.roundNearestEven (sum + grade)) acc
        ∧ l.foldl (fun sum grade => Binary64.roundNearestEven (sum + grade)) acc
            ≤ 100 * ((k + l.length : ℕ) : ℚ) := by
  induction l with
  | nil =>
    intro k acc h0 h1 _
    simpa using ⟨h0, h1⟩
  | cons a t ih =>
    intro k acc h0 h1 hlen
    have ha := hl a (List.mem_cons_self _ _)
    simp only [List.length_cons] at hlen
    have hstep0 : 0 ≤ Binary64.roundNearestEven (acc + a) :=
      Binary64.roundNearestEven_nonneg (by linarith [ha.1])
    have hstep1 : Binary64.roundNearestEven (acc + a) ≤ 100 * ((k + 1 : ℕ) : ℚ) := by
      have hle : acc + a ≤ ((100 * (k + 1) : ℕ) : ℚ) := by
        push_cast
        linarith [ha.2]
      have := Binary64.roundNearestEven_mono (by linarith [ha.1]) hle
      rw [Binary64.roundNearestEven_natCast _ (by omega)] at this
      push_cast at this ⊢
      exact this
    have := ih (fun g hg => hl g (List.mem_cons_of_mem _ hg)) (k + 1) _ hstep0 hstep1
      (by omega)
    simp only [List.foldl_cons, List.length_cons]
    have he : k + (t.length + 1) = k + 1 + t.length := by omega
    rw [he]
    exact this

theorem Student.getAverageGradeBinary64_bounds (s : Student ℚ)
    (hl : ∀ g ∈ s.grades, 0 ≤ g ∧ g ≤ 100) (hlen : 100 * s.grades.length < 2 ^ 53) :
    0 ≤ s.getAverageGradeBinary64 ∧ s.getAverageGradeBinary64 ≤ 100 := by
  unfold Student.getAverageGradeBinary64
  cases hg : s.grades with
  | nil =>
    simp only [List.isEmpty_nil, if_true]
    norm_num
  | cons a t =>
    have hb := foldl_binary64_bounds s.grades hl 0 0.0 (by norm_num) (by norm_num)
      (by simpa using hlen)
    rw [hg] at hb hlen
    simp only [List.isEmpty_cons, Bool.false_eq_true, if_false]
    rw [Binary64.roundNearestEven_natCast _ (by omega)]
    have hpos : (0 : ℚ) < ((a :: t).length : ℚ) := by
      simp only [List.length_cons]
      push_cast
      positivity
    rw [Nat.zero_add] at hb
    constructor
    · exact Binary64.roundNearestEven_nonneg (div_nonneg hb.1 hpos.le)
    · have hq : List.foldl (fun sum grade => Binary64.roundNearestEven (sum + grade)) 0.0 (a :: t)
          / ((a :: t).length : ℚ) ≤ ((100 : ℕ) : ℚ) := by
        rw [div_le_iff₀ hpos]
        push_cast
        exact hb.2
      have := Binary64.roundNearestEven_mono (div_nonneg hb.1 hpos.le) hq
      rw [Binary64.roundNearestEven_natCast _ (by norm_num)] at this
      exact_mod_cast this

theorem foldl_replicate_steps (f : ℚ → ℚ → ℚ) (g : ℚ) (v : ℕ → ℚ) (n : ℕ)
    (h : ∀ j < n, f (v j) g = v (j + 1)) : (List.replicate n g).foldl f (v 0) = v n := by
  induction n with
  | zero => rfl
  | succ n ih =>
    rw [List.replicate_succ', List.foldl_append, ih (fun j hj => h j (by omega))]
    simp [h n (by omega)]

/-- Adding 96.0 again and again from 0.0: the first 3002399751580330 sums are exact. -/
theorem sum96_exact (n : ℕ) (hn : n ≤ 3002399751580330) :
    (List.replicate n (96 : ℚ)).foldl
      (fun sum grade => Binary64.roundNearestEven (sum + grade)) 0.0 = 96 * n := by
  have := foldl_replicate_steps (fun sum grade => Binary64.roundNearestEven (sum + grade)) 96
    (fun j => 96 * (j : ℚ)) n (by
      intro j hj
      have h := Binary64.roundNearestEven_natCast_mul_two_pow (3 * (j + 1)) 5 (by omega)
      have e : ((3 * (j + 1) : ℕ) : ℚ) * 2 ^ 5 = 96 * (j : ℚ) + 96 := by
        push_cast
        ring
      rw [e] at h
      simp only [h]
      push_cast
      ring)
  simp only [Nat.cast_zero, mul_zero] at this
  rw [← this]
  norm_num

/-- From 2^58 on the binary64 values are 64 apart: adding 96.0 lands halfway between two of
them and the tie goes to the even one, 128 above. -/
theorem sum96_by128 (n : ℕ) (hn : n ≤ 2251799813685247) :
    (List.replicate n (96 : ℚ)).foldl
      (fun sum grade => Binary64.roundNearestEven (sum + grade)) 288230376151711744
      = 288230376151711744 + 128 * n := by
  have := foldl_replicate_steps (fun sum grade => Binary64.roundNearestEven (sum + grade)) 96
    (fun j => 288230376151711744 + 128 * (j : ℚ)) n (by
      intro j hj
      have hj0 : (0 : ℚ) ≤ (j : ℚ) := Nat.cast_nonneg j
      have hj1 : (j : ℚ) ≤ 2251799813685246 := by
        have : j ≤ 2251799813685246 := by omega
        exact_mod_cast this
      have hq : (288230376151711744 + 128 * (j : ℚ) + 96) / 2 ^ ((58 : ℤ) - 52)
          - ((4503599627370498 + 2 * (j : ℤ) : ℤ) : ℚ) = -(1 / 2) := by
        norm_num
        ring
      have h := Binary64.roundNearestEven_tie (288230376151711744 + 128 * (j : ℚ) + 96) 58
        (4503599627370498 + 2 * (j : ℤ)) (by norm_num; linarith) (by norm_num; linarith)
        (by norm_num) (by rw [hq, abs_neg]; norm_num) (by omega)
      simp only [h]
      norm_num
      ring)
  simp only [Nat.cast_zero, mul_zero, add_zero] at this
  exact this

/-- The binary64 sum of 5254199565265578 grades of 96.0 is 2^59 - 128. -/
theorem sum96_long :
    (List.replicate 5254199565265578 (96 : ℚ)).foldl
      (fun sum grade => Binary64.roundNearestEven (sum + grade)) 0.0
      = 576460752303423360 := by
  have hsplit : (5254199565265578 : ℕ) = 3002399751580330 + (1 + 2251799813685247) := by
    norm_num
  have hstep : Binary64.roundNearestEven ((96 : ℚ) * (3002399751580330 : ℕ) + 96)
      = 288230376151711744 := by
    rw [Binary64.roundNearestEven_tie _ 58 4503599627370496 (by norm_num) (by norm_num)
      (by norm_num) (by norm_num) (by norm_num)]
    norm_num
  rw [hsplit, List.replicate_add, List.foldl_append, sum96_exact _ le_rfl, List.replicate_add,
    List.foldl_append, List.replicate_one, List.foldl_cons, List.foldl_nil, hstep,
    sum96_by128 _ le_rfl]
  norm_num

theorem replicate_ne_nil {α : Type} (n : ℕ) (hn : 0 < n) (x : α) : List.replicate n x ≠ [] := by
  cases n with
  | zero => omega
  | succ m => simp [List.replicate_succ]

theorem getAverageGradeBinary64_mk (nm : String) (a : Int) (l : List ℚ) (h : l ≠ []) :
    (⟨nm, a, l⟩ : Student ℚ).getAverageGradeBinary64
      = Binary64.roundNearestEven
          (l.foldl (fun sum grade => Binary64.roundNearestEven (sum + grade)) 0.0
            / Binary64.roundNearestEven (l.length : ℚ)) := by
  have he : l.isEmpty = false := by
    cases l with
    | nil => exact absurd rfl h
    | cons a t => rfl
  simp only [Student.getAverageGradeBinary64, he]
  simp

theorem average_replicate (nm : String) (a : Int) (n : ℕ) (g S : ℚ) (h0 : 0 < n)
    (hn : n < 2 ^ 53)
    (hS : (List.replicate n g).foldl (fun sum grade => Binary64.roundNearestEven (sum + grade))
      0.0 = S) (hq : 109 * (n : ℚ) ≤ S) :
    100 < (⟨nm, a, List.replicate n g⟩ : Student ℚ).getAverageGradeBinary64 := by
  rw [getAverageGradeBinary64_mk nm a _ (replicate_ne_nil n h0 g), hS, List.length_replicate,
    Binary64.roundNearestEven_natCast n hn]
  have hpos : (0 : ℚ) < (n : ℚ) := by exact_mod_cast h0
  have hq2 : ((109 : ℕ) : ℚ) ≤ S / (n : ℚ) := by
    rw [le_div_iff₀ hpos]
    push_cast
    exact hq
  have := Binary64.roundNearestEven_mono (by norm_num) hq2
  rw [Binary64.roundNearestEven_natCast _ (by norm_num)] at this
  have h109 : (100 : ℚ) < ((109 : ℕ) : ℚ) := by norm_num
  exact lt_of_lt_of_le h109 this

/-- The binary64 average of 5254199565265578 grades of 96.0 is above 100. -/
theorem average96_long :
    100 < (⟨"Unknown", 0, List.replicate 5254199565265578 96.0⟩
      : Student ℚ).getAverageGradeBinary64 :=
  average_replicate "Unknown" 0 5254199565265578 96.0 576460752303423360 (by norm_num)
    (by norm_num) (by rw [show (96.0 : ℚ) = 96 by norm_num]; exact sum96_long) (by norm_num)

theorem State.calls_addGrade_replicate {F : Type} [LinearOrderedField F] (g : F)
    (hg : 0 ≤ g ∧ g ≤ 100) (t : Int) (nm : String) (a : Int) (out : List String) (n : ℕ) :
    ∀ gs : List F,
      (⟨t, [some ⟨nm, a, gs⟩], out⟩ : State F).calls (List.replicate n (.addGrade 0 g))
        = some ⟨t, [some ⟨nm, a, gs ++ List.replicate n g⟩], out⟩ := by
  have h2 : g ≥ 0.0 ∧ g ≤ 100.0 := by norm_num; exact hg
  induction n with
  | zero =>
    intro gs
    simp [State.calls]
  | succ n ih =>
    intro gs
    rw [List.replicate_succ]
    simp only [State.calls, State.call, State.addGrade, State.get, Student.addGrade, if_pos h2,
      List.getElem?_cons_zero, Option.some_bind, id, Option.map_some', List.set_cons_zero]
    rw [ih (gs ++ [g])]
    simp [List.replicate_succ]

theorem State.calls_ctorDefault_addGrade_replicate {F : Type} [LinearOrderedField F] (g : F)
    (hg : 0 ≤ g ∧ g ≤ 100) (n : ℕ) :
    (State.init (F := F)).calls (.ctorDefault :: List.replicate n (.addGrade 0 g))
      = some ⟨1, [some ⟨"Unknown", 0, List.replicate n g⟩],
          ["  Default constructor called for Unknown"]⟩ := by
  simp only [State.calls, State.call, State.init, Student.ctorDefault, Option.some_bind,
    List.length_nil, List.nil_append, Int.zero_add, zero_add]
  rw [State.calls_addGrade_replicate g hg]
  simp

/-- C18, refuted as stated, in the arithmetic of the machine. The `double` written `0.1` is
3602879701896397 / 2^55. A student constructed and given this grade three times holds it
three times, and `getAverageGrade` returns 7205759403792795 / 2^56, which is above every
stored grade: the sum of the three rounds up, and so does the quotient by 3. A student
constructed and given the grade 96.0 5254199565265578 times holds that many grades, all in
[0, 100], and `getAverageGrade` returns a value above 100: from the sum 2^58 on, every
addition of 96.0 rounds to an addition of 128. -/
theorem average_outside_grade_range_counterexample :
    Binary64.roundNearestEven 0.1 = 3602879701896397 / 2 ^ 55
      ∧ (State.init (F := ℚ)).calls
          [.ctorDefault, .addGrade 0 (3602879701896397 / 2 ^ 55),
           .addGrade 0 (3602879701896397 / 2 ^ 55), .addGrade 0 (3602879701896397 / 2 ^ 55)]
        = some ⟨1, [some ⟨"Unknown", 0, [3602879701896397 / 2 ^ 55,
              3602879701896397 / 2 ^ 55, 3602879701896397 / 2 ^ 55]⟩],
            ["  Default constructor called for Unknown"]⟩
      ∧ (⟨"Unknown", 0, [3602879701896397 / 2 ^ 55, 3602879701896397 / 2 ^ 55,
            3602879701896397 / 2 ^ 55]⟩ : Student ℚ).getAverageGradeBinary64
          = 7205759403792795 / 2 ^ 56
      ∧ (∀ g ∈ ([3602879701896397 / 2 ^ 55, 3602879701896397 / 2 ^ 55,
            3602879701896397 / 2 ^ 55] : List ℚ),
          g < (⟨"Unknown", 0, [3602879701896397 / 2 ^ 55, 3602879701896397 / 2 ^ 55,
            3602879701896397 / 2 ^ 55]⟩ : Student ℚ).getAverageGradeBinary64)
      ∧ (State.init (F := ℚ)).calls
          (.ctorDefault :: List.replicate 5254199565265578 (.addGrade 0 96.0))
        = some ⟨1, [some ⟨"Unknown", 0, List.replicate 5254199565265578 96.0⟩],
            ["  Default constructor called for Unknown"]⟩
      ∧ 100 < (⟨"Unknown", 0, List.replicate 5254199565265578 96.0⟩
          : Student ℚ).getAverageGradeBinary64 := by
  have h1 : Binary64.roundNearestEven 0.1 = 3602879701896397 / 2 ^ 55 := by
    rw [Binary64.roundNearestEven_of_near _ (-4) 7205759403792794 (by norm_num) (by norm_num)
      (by norm_num) (by norm_num [abs_lt])]
    norm_num
  have ha : Binary64.roundNearestEven (0 + 3602879701896397 / 2 ^ 55)
      = 3602879701896397 / 2 ^ 55 := by
    rw [Binary64.roundNearestEven_of_near _ (-4) 7205759403792794 (by norm_num) (by norm_num)
      (by norm_num) (by norm_num)]
    norm_num
  have hb : Binary64.roundNearestEven (3602879701896397 / 2 ^ 55 + 3602879701896397 / 2 ^ 55)
      = 3602879701896397 / 2 ^ 54 := by
    rw [Binary64.roundNearestEven_of_near _ (-3) 7205759403792794 (by norm_num) (by norm_num)
      (by norm_num) (by norm_num)]
    norm_num
  have hc : Binary64.roundNearestEven (3602879701896397 / 2 ^ 54 + 3602879701896397 / 2 ^ 55)
      = 1351079888211149 / 2 ^ 52 := by
    rw [Binary64.roundNearestEven_tie _ (-2) 5404319552844596 (by norm_num) (by norm_num)
      (by norm_num) (by norm_num) (by norm_num)]
    norm_num
  have hd : Binary64.roundNearestEven (1351079888211149 / 2 ^ 52 / ((3 : ℕ) : ℚ))
      = 7205759403792795 / 2 ^ 56 := by
    rw [Binary64.roundNearestEven_of_near _ (-4) 7205759403792795 (by norm_num) (by norm_num)
      (by norm_num) (by norm_num [abs_lt])]
    norm_num
  have h0 : (0.0 : ℚ) = 0 := by norm_num
  have havg : (⟨"Unknown", 0, [3602879701896397 / 2 ^ 55, 3602879701896397 / 2 ^ 55,
      3602879701896397 / 2 ^ 55]⟩ : Student ℚ).getAverageGradeBinary64
        = 7205759403792795 / 2 ^ 56 := by
    rw [getAverageGradeBinary64_mk _ _ _ (by simp)]
    simp only [List.foldl_cons, List.foldl_nil, List.length_cons, List.length_nil, h0, ha, hb,
      hc]
    rw [Binary64.roundNearestEven_natCast _ (by norm_num)]
    exact hd
  have h96 : (0 : ℚ) ≤ 96.0 ∧ (96.0 : ℚ) ≤ 100 := by norm_num
  refine ⟨h1, ?_, havg, ?_, ?_, average96_long⟩
  · simp [State.calls, State.call, State.init, State.get, State.addGrade, Student.ctorDefault,
      Student.addGrade]
    norm_num
  · rw [havg]
    intro g hg
    simp only [List.mem_cons, List.mem_singleton, List.not_mem_nil, or_false, or_self] at hg
    rw [hg]
    norm_num
  · exact State.calls_ctorDefault_addGrade_replicate 96.0 h96 5254199565265578

/-- C18, amended: in every state reached from the initial one by a sequence of constructor,
copy constructor, destructor, `setName`, `setAge` and `addGrade` calls, every grade stored in
a live `Student` is in [0, 100]; and when 100 times the number of its grades is below 2^53,
the value `getAverageGrade` returns in binary64 arithmetic is in [0, 100]. -/
theorem grades_in_range_average_binary64 (ops : List (Call ℚ)) (w : State ℚ) (p : Nat)
    (s : Student ℚ) (hrun : (State.init (F := ℚ)).calls ops = some w)
    (hs : w.get p = some s) :
    (∀ g ∈ s.grades, 0 ≤ g ∧ g ≤ 100)
      ∧ (100 * s.grades.length < 2 ^ 53 →
          0 ≤ s.getAverageGradeBinary64 ∧ s.getAverageGradeBinary64 ≤ 100) := by
  have hall : ∀ g ∈ s.grades, 0 ≤ g ∧ g ≤ 100 :=
    State.calls_grades ops State.init w hrun (by simp [State.init]) s
      (List.getElem?_mem (State.mem_of_get w p s hs))
  exact ⟨hall, fun hlen => Student.getAverageGradeBinary64_bounds s hall hlen⟩

/-- Witness of C18: a student constructed, given the grades 95.0, 250.0 (rejected) and 88.0,
renamed and then copied; the copy at address 1 holds the grades 95.0 and 88.0, and its
binary64 average is in [0, 100]. -/
theorem grades_in_range_average_binary64_witness :
    (State.init (F := ℚ)).calls
        [.ctorParam "Bob" 22, .addGrade 0 95.0, .addGrade 0 250.0, .addGrade 0 88.0,
         .setName 0 "Robert", .ctorCopy 0]
      = some ⟨2, [some ⟨"Robert", 22, [95.0, 88.0]⟩, some ⟨"Robert", 22, [95.0, 88.0]⟩],
          ["  Parameterized constructor called for Bob",
           "  Copy constructor called for Robert"]⟩
      ∧ (⟨2, [some ⟨"Robert", 22, [95.0, 88.0]⟩, some ⟨"Robert", 22, [95.0, 88.0]⟩],
          ["  Parameterized constructor called for Bob",
           "  Copy constructor called for Robert"]⟩ : State ℚ).get 1
        = some ⟨"Robert", 22, [95.0, 88.0]⟩
      ∧ (∀ g ∈ ([95.0, 88.0] : List ℚ), 0 ≤ g ∧ g ≤ 100)
      ∧ 100 * ([95.0, 88.0] : List ℚ).length < 2 ^ 53
      ∧ 0 ≤ (⟨"Robert", 22, [95.0, 88.0]⟩ : Student ℚ).getAverageGradeBinary64
      ∧ (⟨"Robert", 22, [95.0, 88.0]⟩ : Student ℚ).getAverageGradeBinary64 ≤ 100 :=
  have hrun : (State.init (F := ℚ)).calls
        [.ctorParam "Bob" 22, .addGrade 0 95.0, .addGrade 0 250.0, .addGrade 0 88.0,
         .setName 0 "Robert", .ctorCopy 0]
      = some ⟨2, [some ⟨"Robert", 22, [95.0, 88.0]⟩, some ⟨"Robert", 22, [95.0, 88.0]⟩],
          ["  Parameterized constructor called for Bob",
           "  Copy constructor called for Robert"]⟩ := by
    simp [State.calls, State.call, State.init, State.get, State.addGrade, State.setName,
      Student.ctorParam, Student.ctorCopy, Student.addGrade, Student.setName]
    norm_num
  have hlen : 100 * ([95.0, 88.0] : List ℚ).length < 2 ^ 53 := by norm_num
  ⟨hrun, rfl,
    (grades_in_range_average_binary64 _ _ 1 ⟨"Robert", 22, [95.0, 88.0]⟩ hrun rfl).1,
    hlen,
    (grades_in_range_average_binary64 _ _ 1 ⟨"Robert", 22, [95.0, 88.0]⟩ hrun rfl).2 hlen⟩

end Classes

namespace Functions

/-! ### Lemmas on `factorial` -/

theorem factorial_nat (k : Nat) (hk : k ≤ 12) : factorial (k : Int) = some (k.factorial : Int) := by
  induction k with
  | zero =>
    rw [factorial]
    simp
  | succ m ih =>
    rw [factorial]
    by_cases h1 : ((m + 1 : Nat) : Int) ≤ 1
    · have hm : m = 0 := by omega
      subst hm
      simp
    · rw [if_neg h1]
      have hsub : ((m + 1 : Nat) : Int) - 1 = (m : Int) := by push_cast; ring
      rw [hsub, ih (by omega)]
      have hle : (m + 1).factorial ≤ Nat.factorial 12 := Nat.factorial_le hk
      have h12 : Nat.factorial 12 = 479001600 := by decide
      have hprod : ((m + 1 : Nat) : Int) * (m.factorial : Int) = ((m + 1).factorial : Int) := by
        rw [Nat.factorial_succ]; push_cast; ring
      simp only [Option.some_bind, hprod, checkedInt, INT_MIN, INT_MAX]
      have hpos : (0 : Int) ≤ ((m + 1).factorial : Int) := by positivity
      have hup : ((m + 1).factorial : Int) ≤ 479001600 := by
        have : (m + 1).factorial ≤ 479001600 := h12 ▸ hle
        exact_mod_cast this
      rw [if_pos ⟨by linarith, by linarith⟩]

/-! ### The claims on `functions.cpp` -/

/-- C20: for every `n` with 0 ≤ n ≤ 12, `factorial(n)` returns `n!`, and it returns at all
only because no product on the way left the range of a 32-bit signed `int` (an overflow
would give no result); the largest value, 12!, is 479001600 ≤ 2147483647; in particular
`factorial(5)` is 120. -/
theorem factorial_correct_upto_12 (n : Int) (h0 : 0 ≤ n) (h12 : n ≤ 12) :
    factorial n = some (n.toNat.factorial : Int)
      ∧ (INT_MIN ≤ (n.toNat.factorial : Int) ∧ (n.toNat.factorial : Int) ≤ INT_MAX)
      ∧ factorial 5 = some 120
      ∧ ((Nat.factorial 12 : Int) = 479001600 ∧ (479001600 : Int) ≤ INT_MAX) := by
  have hn : ((n.toNat : Nat) : Int) = n := Int.toNat_of_nonneg h0
  have hk : n.toNat ≤ 12 := by omega
  have hres := factorial_nat n.toNat hk
  rw [hn] at hres
  have hle : n.toNat.factorial ≤ Nat.factorial 12 := Nat.factorial_le hk
  have hval : Nat.factorial 12 = 479001600 := by decide
  have hup : (n.toNat.factorial : Int) ≤ 479001600 := by
    have : n.toNat.factorial ≤ 479001600 := hval ▸ hle
    exact_mod_cast this
  have hpos : (0 : Int) ≤ (n.toNat.factorial : Int) := by positivity
  refine ⟨hres, ⟨?_, ?_⟩, ?_, ⟨by rw [hval]; norm_num, by decide⟩⟩
  · simp only [INT_MIN]; linarith
  · simp only [INT_MAX]; linarith
  · have h5 := factorial_nat 5 (by decide)
    have hf : Nat.factorial 5 = 120 := by decide
    rw [hf] at h5
    exact_mod_cast h5

/-- Witness of C20 at `n = 7`: `factorial(7)` is 5040. -/
theorem factorial_correct_upto_12_witness :
    (0 : Int) ≤ 7 ∧ (7 : Int) ≤ 12 ∧ factorial 7 = some ((7 : Int).toNat.factorial : Int) :=
  ⟨by decide, by decide, (factorial_correct_upto_12 7 (by decide) (by decide)).1⟩

end Functions

/-! ### Lemmas: each modelled `main` reaches its `return 0` -/

theorem Loops.main_returns : Loops.main.map Prod.fst = some 0 := by
  decide

theorem Functions.main_code_zero {F : Type} [Field F] (fmt : F → String) :
    (Functions.main fmt).map Prod.fst = some 0 := by
  have h5 : Functions.factorial 5 = some 120 := by
    have h := Functions.factorial_nat 5 (by decide)
    have hf : Nat.factorial 5 = 120 := by decide
    rw [hf] at h
    exact_mod_cast h
  simp [Functions.main, Functions.main.sections1to4, Functions.main.sections5to6,
    Functions.main.sections7to8, Functions.add, Functions.multiply, Functions.multiply3,
    Functions.checkedInt, Functions.INT_MIN, Functions.INT_MAX, Functions.modifyVector,
    Functions.demonstrateLambda, h5]

theorem Polymorphism.main.sections6to8_returns {F : Type} [Field F]
    (L : Polymorphism.DoubleLib F) (w : Polymorphism.World F)
    (a b c : Polymorphism.AnyShape F) (rest : List (Polymorphism.AnyShape F))
    (h : w.heap = a :: b :: c :: rest) :
    ∃ w2, Polymorphism.main.sections6to8 L w = some w2 := by
  obtain ⟨heap, out⟩ := w
  simp only at h
  subst h
  apply Option.isSome_iff_exists.1
  simp [Polymorphism.main.sections6to8, Polymorphism.main.section7.loop,
    Polymorphism.main.section8.loop, Polymorphism.calculateTotalArea,
    Polymorphism.calculateTotalArea.loop, Polymorphism.World.getArea,
    Polymorphism.World.getName, Polymorphism.World.println, Polymorphism.main.circle,
    Polymorphism.main.rectangle, Polymorphism.main.triangle]

theorem Polymorphism.main_reaches_return {F : Type} [LinearOrderedField F]
    (L : Polymorphism.DoubleLib F) : (Polymorphism.main L).map Prod.fst = some 0 := by
  obtain ⟨w3, h3, hheap3⟩ := Option.map_eq_some'.1 (Polymorphism.main.sections1to3_heap L)
  obtain ⟨heap3, out3⟩ := w3
  simp only at hheap3
  subst hheap3
  obtain ⟨w4, h4, hheap4⟩ := Option.map_eq_some'.1
    (Polymorphism.main.section4_heap L
      (.circle { name := "MyCircle", x := 10, y := 10, radius := 5.0 })
      (.rectangle { name := "MyRectangle", x := 20, y := 20, width := 4.0, height := 6.0 })
      (.triangle { name := "MyTriangle", x := 30, y := 30, base := 3.0, height := 4.0 }) out3)
  have hsplit := List.take_append_drop 3 w4.heap
  rw [hheap4] at hsplit
  have h0 : w4.heap[0]? = some (.circle { name := "MyCircle", x := 10, y := 10, radius := 5.0 }) := by
    rw [← hsplit]; rfl
  have h1 : w4.heap[1]? = some (.rectangle
      { name := "MyRectangle", x := 20, y := 20, width := 4.0, height := 6.0 }) := by
    rw [← hsplit]; rfl
  have h5 := Polymorphism.main.section5_eq L w4 _ _ h0 h1
  obtain ⟨w6, hw6⟩ := Polymorphism.main.sections6to8_returns L
    ⟨w4.heap, w4.out ++
      (["5. Polymorphism with references:", "  Circle via reference:"]
        ++ Polymorphism.Shape.displayInfo L
            (.circle { name := "MyCircle", x := 10, y := 10, radius := 5.0 })
        ++ Polymorphism.AnyShape.draw L
            (.circle { name := "MyCircle", x := 10, y := 10, radius := 5.0 })
        ++ ["  Rectangle via reference:"]
        ++ Polymorphism.Shape.displayInfo L (.rectangle
            { name := "MyRectangle", x := 20, y := 20, width := 4.0, height := 6.0 })
        ++ Polymorphism.AnyShape.draw L (.rectangle
            { name := "MyRectangle", x := 20, y := 20, width := 4.0, height := 6.0 })
        ++ [""])⟩
    _ _ _ (w4.heap.drop 3) hsplit.symm
  rw [Polymorphism.main, h3]
  simp only [Option.bind_eq_bind, Option.some_bind, h4, h5, hw6, Option.pure_def,
    Option.map_some']

/-! ### The claim on the nine `main` functions -/

/-- C15: none of the nine `main` functions has a parameter, and each returns 0. The seven
whose bodies are modelled in full (`main.cpp`, `variables.cpp`, `loops.cpp`, `functions.cpp`,
`classes.cpp`, `inheritance.cpp`, `polymorphism.cpp`) reach `return 0` and return 0; for
`containers.cpp` and `algorithms.cpp`, whatever the called `void` functions do, a run of
`main` that reaches its end returns 0. No `main` has another `return`. -/
theorem every_main_returns_zero {F : Type} [LinearOrderedField F] (fmt : F → String)
    (LV : Variables.FloatLib F) (LP : Polymorphism.DoubleLib F) (dc : Containers.Demos)
    (da : Algorithms.Demos) :
    Welcome.main.1 = 0
      ∧ (Variables.main LV).1 = 0
      ∧ (∃ out, Loops.main = some (0, out))
      ∧ (∃ out, Functions.main fmt = some (0, out))
      ∧ (∃ w, Classes.main fmt = some (0, w))
      ∧ (Inheritance.main fmt).1 = 0
      ∧ (∃ w, Polymorphism.main LP = some (0, w))
      ∧ (∀ r, Containers.main dc = some r → r.1 = 0)
      ∧ (∀ r, Algorithms.main da = some r → r.1 = 0) := by
  have hfst : ∀ {α : Type} (m : Option (Int × α)), m.map Prod.fst = some 0 →
      ∃ a, m = some (0, a) := by
    intro α m h
    obtain ⟨r, hr, hz⟩ := Option.map_eq_some'.1 h
    obtain ⟨c, a⟩ := r
    simp only at hz
    subst hz
    exact ⟨a, hr⟩
  refine ⟨rfl, rfl, hfst _ Loops.main_returns, hfst _ (Functions.main_code_zero fmt), ?_, rfl,
    hfst _ (Polymorphism.main_reaches_return LP), ?_, ?_⟩
  · obtain ⟨r, hr, hproj⟩ := Option.map_eq_some'.1 (Classes.main_final fmt)
    obtain ⟨code, wf⟩ := r
    simp only [Prod.mk.injEq] at hproj
    obtain ⟨hc, -⟩ := hproj
    subst hc
    exact ⟨wf, hr⟩
  · intro r hr
    simp only [Containers.main, Option.bind_eq_bind, Option.pure_def, Option.bind_eq_some] at hr
    obtain ⟨_, _, _, _, _, _, _, _, _, _, _, _, _, _, _, _, _, _, _, _, hr⟩ := hr
    cases hr
    rfl
  · intro r hr
    simp only [Algorithms.main, Option.bind_eq_bind, Option.pure_def, Option.bind_eq_some] at hr
    obtain ⟨_, _, _, _, _, _, _, _, _, _, _, _, _, _, _, _, hr⟩ := hr
    cases hr
    rfl

/-- Witness of C15 for the two programs with parameters: when each called function returns
(here: after writing one line), `main` returns 0. -/
theorem every_main_returns_zero_witness :
    Containers.main ⟨fun o => some (o ++ ["v"]), fun o => some (o ++ ["l"]),
        fun o => some (o ++ ["d"]), fun o => some (o ++ ["s"]), fun o => some (o ++ ["m"]),
        fun o => some (o ++ ["u"]), fun o => some (o ++ ["k"]), fun o => some (o ++ ["q"]),
        fun o => some (o ++ ["p"]), fun o => some (o ++ ["a"])⟩
      = some (0, ["=== STL Containers ===", "", "v", "l", "d", "s", "m", "u", "k", "q", "p",
          "a", "=== End of STL Containers Example ==="])
      ∧ ((0 : Int), ["=== STL Containers ===", "", "v", "l", "d", "s", "m", "u", "k", "q", "p",
          "a", "=== End of STL Containers Example ==="]).1 = 0 :=
  ⟨rfl,
   (every_main_returns_zero (F := ℚ) (fun _ => "") ⟨fun _ => "", fun _ => "", fun _ => ""⟩
      ⟨fun q => q, fun _ => ""⟩
      ⟨fun o => some (o ++ ["v"]), fun o => some (o ++ ["l"]),
        fun o => some (o ++ ["d"]), fun o => some (o ++ ["s"]), fun o => some (o ++ ["m"]),
        fun o => some (o ++ ["u"]), fun o => some (o ++ ["k"]), fun o => some (o ++ ["q"]),
        fun o => some (o ++ ["p"]), fun o => some (o ++ ["a"])⟩
      ⟨fun o => some o, fun o => some o, fun o => some o, fun o => some o, fun o => some o,
        fun o => some o, fun o => some o, fun o => some o⟩).2.2.2.2.2.2.2.1 _ rfl⟩

namespace Functions

/-! ### Lemmas on the depth of `factorial` and on `modifyVector` -/

theorem factorial_base (n : Int) (h : n ≤ 1) : factorial n = some 1 := by
  rw [factorial, if_pos h]

theorem factorial_step (n : Int) (h : ¬ n ≤ 1) :
    factorial n = (factorial (n - 1)).bind fun r => checkedInt (n * r) := by
  rw [factorial, if_neg h]

theorem factorial.within_succ (k : Nat) :
    ∀ n : Int, n ≤ (k : Int) + 1 → factorial.within (k + 1) n = some (factorial n) := by
  induction k with
  | zero =>
    intro n hn
    have h1 : n ≤ 1 := by simpa using hn
    simp only [factorial.within, if_pos h1, factorial_base n h1]
  | succ m ih =>
    intro n hn
    by_cases h1 : n ≤ 1
    · simp only [factorial.within, if_pos h1, factorial_base n h1]
    · have hm : n - 1 ≤ (m : Int) + 1 := by push_cast at hn; omega
      rw [factorial.within, if_neg h1, ih (n - 1) hm, factorial_step n h1]
      rfl

theorem modifyVector_eq (v : List Int)
    (h : ∀ x ∈ v, INT_MIN ≤ x * 2 ∧ x * 2 ≤ INT_MAX) :
    modifyVector v = some (v.map fun x => x * 2) := by
  induction v with
  | nil => rfl
  | cons a t ih =>
    have ha := h a (List.mem_cons_self _ _)
    have ht := ih fun x hx => h x (List.mem_cons_of_mem _ hx)
    simp only [modifyVector, checkedInt, if_pos ha, Option.some_bind, ht, Option.map_some',
      List.map_cons]

/-! ### The claims on `factorial`, `modifyVector` and `swap` -/

/-- C21: `factorial` finishes on every `int` input: a call with argument `n` needs at most
`max(n, 1)` nested calls and then has the outcome of `factorial(n)` (a value, or no value when
a product on the way back overflowed). At each recursive call the argument `n - 1` is smaller
than `n` and still at least 1, so the base case `n <= 1` is reached. For every `n ≤ 1`, also 0,
negative `n` and the least `int`, the result is 1 from the first call, with no recursion. -/
theorem factorial_terminates (n : Int) :
    factorial.within (max n 1).toNat n = some (factorial n)
      ∧ (¬ n ≤ 1 → n - 1 < n ∧ 1 ≤ n - 1 ∧ (n - 1).toNat < n.toNat)
      ∧ (n ≤ 1 → factorial n = some 1 ∧ factorial.within 1 n = some (some 1))
      ∧ factorial 1 = some 1 ∧ factorial 0 = some 1 ∧ factorial (-1) = some 1
      ∧ factorial INT_MIN = some 1 := by
  refine ⟨?_, fun h => ⟨by omega, by omega, by omega⟩, fun h => ⟨factorial_base n h, ?_⟩,
    factorial_base 1 (by decide), factorial_base 0 (by decide), factorial_base (-1) (by decide),
    factorial_base INT_MIN (by decide)⟩
  · obtain ⟨k, hk⟩ : ∃ k : Nat, (max n 1).toNat = k + 1 :=
      ⟨(max n 1).toNat - 1, by have : 1 ≤ max n 1 := le_max_right n 1; omega⟩
    rw [hk]
    apply factorial.within_succ
    have h1 : ((max n 1).toNat : Int) = max n 1 :=
      Int.toNat_of_nonneg (le_trans (by decide) (le_max_right n 1))
    have h2 : n ≤ max n 1 := le_max_left n 1
    have h3 : ((max n 1).toNat : Int) = (k : Int) + 1 := by rw [hk]; push_cast; ring
    omega
  · simp only [factorial.within, if_pos h]

/-- Witness of C21: 13 is above 1, so the call recurses on 12; 13 nested calls give the
outcome of `factorial(13)`; -3 is at most 1 and returns 1 at once. -/
theorem factorial_terminates_witness :
    ¬ ((13 : Int) ≤ 1)
      ∧ ((13 : Int) - 1 < 13 ∧ (1 : Int) ≤ 13 - 1 ∧ ((13 : Int) - 1).toNat < (13 : Int).toNat)
      ∧ factorial.within 13 13 = some (factorial 13)
      ∧ ((-3 : Int) ≤ 1 ∧ factorial (-3) = some 1) :=
  ⟨by decide, (factorial_terminates 13).2.1 (by decide), (factorial_terminates 13).1,
   by decide, ((factorial_terminates (-3)).2.2.1 (by decide)).1⟩

/-- C22: when no doubled element overflows, `modifyVector(v)` returns, and the vector then
has the same length and at every index `i` twice the original `i`-th element;
`{1, 2, 3, 4, 5}` becomes `{2, 4, 6, 8, 10}` and the empty vector stays empty. -/
theorem modifyVector_doubles (v : List Int)
    (h : ∀ x ∈ v, INT_MIN ≤ x * 2 ∧ x * 2 ≤ INT_MAX) :
    ∃ v2, modifyVector v = some v2
      ∧ v2.length = v.length
      ∧ (∀ i : Nat, v2[i]? = (v[i]?).map fun x => 2 * x)
      ∧ modifyVector [1, 2, 3, 4, 5] = some [2, 4, 6, 8, 10]
      ∧ modifyVector [] = some [] := by
  refine ⟨v.map fun x => x * 2, modifyVector_eq v h, by simp, ?_, by decide, rfl⟩
  intro i
  rw [List.getElem?_map]
  congr 1
  funext x
  ring

/-- Witness of C22 on the vector of `main`. -/
theorem modifyVector_doubles_witness :
    (∀ x ∈ ([1, 2, 3, 4, 5] : List Int), INT_MIN ≤ x * 2 ∧ x * 2 ≤ INT_MAX)
      ∧ ∃ v2, modifyVector [1, 2, 3, 4, 5] = some v2 ∧ v2.length = 5 :=
  ⟨by decide,
   (modifyVector_doubles [1, 2, 3, 4, 5] (by decide)).imp fun _ hv => ⟨hv.1, hv.2.1⟩⟩

/-- C23: for all `a` and `b`, after `swap(a, b)` the first variable holds the old `b` and the
second the old `a` (`x = 10, y = 20` becomes `x = 20, y = 10`), and a second `swap` restores
the pair. The same holds on variables in memory, whichever two variables the references are
bound to (also one and the same), and no other variable changes. -/
theorem swap_exchanges (a b : Int) (vars : List Int) (pa pb : Nat) (va vb : Int)
    (ha : vars[pa]? = some va) (hb : vars[pb]? = some vb) :
    swap a b = (b, a)
      ∧ swap 10 20 = (20, 10)
      ∧ swap (swap a b).1 (swap a b).2 = (a, b)
      ∧ ∃ vars2, swapRefs vars pa pb = some vars2
          ∧ vars2[pa]? = some vb ∧ vars2[pb]? = some va
          ∧ vars2.length = vars.length
          ∧ (∀ q, q ≠ pa → q ≠ pb → vars2[q]? = vars[q]?)
          ∧ swapRefs vars2 pa pb = some vars := by
  have hla : pa < vars.length := by
    by_contra hge
    rw [List.getElem?_eq_none (Nat.le_of_not_lt hge)] at ha
    cases ha
  have hlb : pb < vars.length := by
    by_contra hge
    rw [List.getElem?_eq_none (Nat.le_of_not_lt hge)] at hb
    cases hb
  have hrun : swapRefs vars pa pb = some ((vars.set pa vb).set pb va) := by
    simp [swapRefs, ha, hb]
  have hpa : ((vars.set pa vb).set pb va)[pa]? = some vb := by
    by_cases hab : pa = pb
    · subst hab
      have hv : va = vb := by rw [ha] at hb; exact Option.some.inj hb
      subst hv
      simp [List.getElem?_set, hla]
    · simp [List.getElem?_set, hla, hab, Ne.symm hab]
  have hpb : ((vars.set pa vb).set pb va)[pb]? = some va := by
    simp [List.getElem?_set, hlb]
  refine ⟨rfl, rfl, rfl, _, hrun, hpa, hpb, by simp, ?_, ?_⟩
  · intro q hqa hqb
    simp [List.getElem?_set, Ne.symm hqa, Ne.symm hqb]
  · have hrun2 : swapRefs ((vars.set pa vb).set pb va) pa pb
        = some ((((vars.set pa vb).set pb va).set pa va).set pb vb) := by
      simp only [swapRefs, hpa, hpb, Option.bind_eq_bind, Option.some_bind, Option.pure_def]
    rw [hrun2]
    congr 1
    apply List.ext_getElem?
    intro q
    by_cases hqb : q = pb
    · subst hqb
      simp [List.getElem?_set, hlb, hb]
    · by_cases hqa : q = pa
      · subst hqa
        simp [List.getElem?_set, hla, ha, Ne.symm hqb, hqb]
      · simp [List.getElem?_set, Ne.symm hqa, Ne.symm hqb]

/-- Witness of C23 on the variables `x = 10`, `y = 20` of `main`, held at addresses 0
and 1. -/
theorem swap_exchanges_witness :
    ([10, 20] : List Int)[0]? = some 10 ∧ ([10, 20] : List Int)[1]? = some 20
      ∧ ∃ vars2, swapRefs [10, 20] 0 1 = some vars2 ∧ vars2[0]? = some 20
          ∧ vars2[1]? = some 10 :=
  ⟨rfl, rfl,
   (swap_exchanges 10 20 [10, 20] 0 1 10 20 rfl rfl).2.2.2.imp
     fun _ hv => ⟨hv.1, hv.2.1, hv.2.2.1⟩⟩

end Functions

namespace Inheritance

/-! ### The claim on the diamond `LivingThing` / `Mammal` / `WingedAnimal` / `Bat` -/

/-- C24: a `Bat` has one `LivingThing` part: its `Mammal` part and its `WingedAnimal` part
have the very same one; in the `Bat` made by `Bat::Bat` its species is `Bat`, set by the
`LivingThing("Bat")` of `Bat`'s own constructor, and the `Mammal` and `WingedAnimal`
initialisers leave it as it is whatever they are given. `breathe()` on a `Bat`, called
directly or through a `LivingThing&`, `Mammal&` or `WingedAnimal&` (also after converting
these to `LivingThing&`), runs `Bat::breathe` and writes exactly the one line
`  Bat breathes with lungs optimized for flight`, which is neither the `LivingThing`, the
`Mammal` nor the `WingedAnimal` text; `main` prints that line in section 5. -/
theorem bat_breathes_as_bat (b : Bat) (sp : String) (v : LivingThing) (out : List String) :
    (b.toMammal.toLivingThing = b.toLivingThing
        ∧ b.toWingedAnimal.toLivingThing = b.toLivingThing
        ∧ b.toMammal.toLivingThing = b.toWingedAnimal.toLivingThing)
      ∧ (Bat.ctor.species = "Bat"
        ∧ Bat.ctor.toLivingThing = LivingThing.ctor "Bat"
        ∧ Bat.ctorSteps = (Bat.ctor, Bat.ctor.toMammal, Bat.ctor.toWingedAnimal)
        ∧ (Mammal.ctorBase sp v).toLivingThing = v
        ∧ (WingedAnimal.ctorBase sp v).toLivingThing = v)
      ∧ (b.breathe = ["  Bat breathes with lungs optimized for flight"]
        ∧ (AnyLivingThing.bat b).breathe = b.breathe
        ∧ (AnyMammal.bat b).breathe = b.breathe
        ∧ (AnyWingedAnimal.bat b).breathe = b.breathe
        ∧ (AnyMammal.bat b).toLivingThingRef.breathe = b.breathe
        ∧ (AnyWingedAnimal.bat b).toLivingThingRef.breathe = b.breathe
        ∧ (AnyLivingThing.bat b).toLivingThing = b.toLivingThing)
      ∧ (Bat.ctor.breathe ≠ Bat.ctor.toMammal.breathe
        ∧ Bat.ctor.breathe ≠ Bat.ctor.toWingedAnimal.breathe
        ∧ Bat.ctor.breathe ≠ Bat.ctor.toLivingThing.breathe
        ∧ Bat.ctor.toMammal.breathe = ["  Bat breathes with lungs"]
        ∧ Bat.ctor.toWingedAnimal.breathe = ["  Bat breathes efficiently for flight"])
      ∧ (main.sections5to6 (F := ℚ) out).take (out.length + 3)
          = out ++ ["5. Virtual inheritance (diamond problem):",
              "  Bat breathes with lungs optimized for flight", ""] := by
  refine ⟨⟨rfl, rfl, rfl⟩, ⟨rfl, rfl, rfl, rfl, rfl⟩, ⟨rfl, rfl, rfl, rfl, rfl, rfl, rfl⟩,
    ⟨by decide, by decide, by decide, by decide, by decide⟩, ?_⟩
  simp [main.sections5to6, Bat.breathe, List.take_append_eq_append_take]

end Inheritance
